import Mathlib

/-! # login-component: registration and login handlers over the credential store

A shallow embedding of `server.js` (the `/api/register` and `/api/login` handlers) and of
`database.js` (the `users` table and its operations), followed by theorems about them.

Modelling conventions.

* A request body field is `Option String`: `none` is an absent property, `some s` a string.
  The JavaScript test `!x` on such a field is `Falsy x`.
* `server.js` reaches the store only through the object exported by `database.js`, and the
  tests replace that object by mocks.  The handlers are therefore written over an interface
  `Database σ` whose operations may fail (a rejected promise is `Except.error`) and may change
  the store state `σ`.  `database` is the instance that `database.js` defines over the
  `users` table.
* `bcrypt` is an external library: the handlers take it as a parameter `Bcrypt`.
* `Date.now()`, `new Date().toISOString()` and the salt drawn by `bcrypt.hash` are inputs of
  a request, gathered in `Env`.
* Every handler returns, next to the response and the new store state, the list of calls it
  made to the store and to bcrypt, in order (`Call`).
-/

namespace LoginComponent

/-! ## Data model -/

/-- An object whose properties are all strings, in insertion order. -/
abbrev JsObject := List (String × String)

/-- The JSON values that occur in response bodies. -/
inductive Json where
  | bool (b : Bool)
  | num (n : Nat)
  | str (s : String)
  | obj (o : JsObject)
  | arr (items : List JsObject)
  deriving DecidableEq, Repr

/-- An HTTP response: `res.status(status).json(body)`; `body` lists the properties of the
object literal in source order. -/
structure Response where
  status : Nat
  body : List (String × Json)
  deriving DecidableEq, Repr

/-- The object `newUser` built by the register handler and passed to `createUser`. -/
structure User where
  id : String
  username : String
  email : String
  password : String
  createdAt : String
  deriving DecidableEq, Repr

/-- A row of the `users` table (`id, username, email, password, created_at`). -/
structure Row where
  id : String
  username : String
  email : String
  password : String
  created_at : String
  deriving DecidableEq, Repr

/-- A row as selected by `getAllUsers`: `SELECT id, username, email, created_at`. -/
structure RowSummary where
  id : String
  username : String
  email : String
  created_at : String
  deriving DecidableEq, Repr

/-- The error a rejected store promise carries. -/
inductive DbError where
  | constraint (column : String)
  | failure (msg : String)
  deriving DecidableEq, Repr

/-- The interface of the object exported by `database.js`, over a store state `σ`. -/
structure Database (σ : Type) where
  createUser : User → σ → Except DbError User × σ
  findUserByEmail : String → σ → Except DbError (Option Row) × σ
  getAllUsers : σ → Except DbError (List RowSummary) × σ
  userExists : String → σ → Except DbError Bool × σ
  getUserCount : σ → Except DbError Nat × σ

/-- The two functions of the external `bcrypt` library that the server uses:
`hash data saltRounds salt` (the salt is the one drawn for this call) and
`compare data encrypted`.  Either may reject. -/
structure Bcrypt where
  hash : String → Nat → String → Except String String
  compare : String → String → Except String Bool

/-- What a request reads from outside the store: `Date.now()`, the string returned by
`new Date().toISOString()`, and the salt drawn by `bcrypt.hash`. -/
structure Env where
  now : Nat
  isoNow : String
  salt : String
  deriving DecidableEq, Repr

/-- A call made by a handler to the store or to bcrypt. -/
inductive Call where
  | userExists (email : String)
  | createUser (user : User)
  | findUserByEmail (email : String)
  | getAllUsers
  | getUserCount
  | bcryptHash (data : String) (saltRounds : Nat)
  | bcryptCompare (data : String) (encrypted : String)
  deriving DecidableEq, Repr

/-- The result of running a handler: the response sent, the store state left behind and the
calls made, in order. -/
structure Outcome (σ : Type) where
  response : Response
  store : σ
  calls : List Call

/-- Body of `POST /api/register`: `const { username, email, password } = req.body`. -/
structure RegisterBody where
  username : Option String
  email : Option String
  password : Option String
  deriving DecidableEq, Repr

/-- Body of `POST /api/login`: `const { email, password } = req.body`. -/
structure LoginBody where
  email : Option String
  password : Option String
  deriving DecidableEq, Repr

/-- JavaScript `!x` for a field that is absent or a string. -/
def Falsy : Option String → Bool
  | none => true
  | some s => s == ""

/-! ## server.js -/

/-- The body `{ success: false, message }`. -/
def failureBody (message : String) : List (String × Json) :=
  [("success", Json.bool false), ("message", Json.str message)]

/-- The response of every `catch` block: 500 `Internal server error`. -/
def internalError : Response :=
  { status := 500, body := failureBody "Internal server error" }

/-- The public view `{ id, username, email }`. -/
def publicUser (id username email : String) : Json :=
  Json.obj [("id", id), ("username", username), ("email", email)]

/-- Handler of `POST /api/register`. -/
def register {σ : Type} (db : Database σ) (bc : Bcrypt) (env : Env) (body : RegisterBody)
    (s : σ) : Outcome σ :=
  if Falsy body.username || Falsy body.email || Falsy body.password then
    { response := { status := 400,
                    body := failureBody "Username, email, and password are required" },
      store := s, calls := [] }
  else
    let username := body.username.getD ""
    let email := body.email.getD ""
    let password := body.password.getD ""
    match db.userExists email s with
    | (.error _, s1) =>
      { response := internalError, store := s1, calls := [Call.userExists email] }
    | (.ok true, s1) =>
      { response := { status := 400,
                      body := failureBody "User with this email already exists" },
        store := s1, calls := [Call.userExists email] }
    | (.ok false, s1) =>
      let saltRounds := 10
      match bc.hash password saltRounds env.salt with
      | .error _ =>
        { response := internalError, store := s1,
          calls := [Call.userExists email, Call.bcryptHash password saltRounds] }
      | .ok hashedPassword =>
        let newUser : User :=
          { id := toString env.now, username := username, email := email,
            password := hashedPassword, createdAt := env.isoNow }
        match db.createUser newUser s1 with
        | (.error _, s2) =>
          { response := internalError, store := s2,
            calls := [Call.userExists email, Call.bcryptHash password saltRounds,
                      Call.createUser newUser] }
        | (.ok _, s2) =>
          { response :=
              { status := 201,
                body := [("success", Json.bool true),
                         ("message", Json.str "User registered successfully"),
                         ("user", publicUser newUser.id newUser.username newUser.email)] },
            store := s2,
            calls := [Call.userExists email, Call.bcryptHash password saltRounds,
                      Call.createUser newUser] }

/-- Handler of `POST /api/login`. -/
def login {σ : Type} (db : Database σ) (bc : Bcrypt) (env : Env) (body : LoginBody)
    (s : σ) : Outcome σ :=
  if Falsy body.email || Falsy body.password then
    { response := { status := 400, body := failureBody "Email and password are required" },
      store := s, calls := [] }
  else
    let email := body.email.getD ""
    let password := body.password.getD ""
    match db.findUserByEmail email s with
    | (.error _, s1) =>
      { response := internalError, store := s1, calls := [Call.findUserByEmail email] }
    | (.ok none, s1) =>
      { response := { status := 401, body := failureBody "Invalid credentials" },
        store := s1, calls := [Call.findUserByEmail email] }
    | (.ok (some user), s1) =>
      match bc.compare password user.password with
      | .error _ =>
        { response := internalError, store := s1,
          calls := [Call.findUserByEmail email, Call.bcryptCompare password user.password] }
      | .ok false =>
        { response := { status := 401, body := failureBody "Invalid credentials" },
          store := s1,
          calls := [Call.findUserByEmail email, Call.bcryptCompare password user.password] }
      | .ok true =>
        let token := "token_" ++ user.id ++ "_" ++ toString env.now
        { response :=
            { status := 200,
              body := [("success", Json.bool true),
                       ("message", Json.str "Login successful"),
                       ("token", Json.str token),
                       ("user", publicUser user.id user.username user.email)] },
          store := s1,
          calls := [Call.findUserByEmail email, Call.bcryptCompare password user.password] }

/-- Handler of `GET /api/users`. -/
def listUsers {σ : Type} (db : Database σ) (s : σ) : Outcome σ :=
  match db.getAllUsers s with
  | (.error _, s1) => { response := internalError, store := s1, calls := [Call.getAllUsers] }
  | (.ok users, s1) =>
    match db.getUserCount s1 with
    | (.error _, s2) =>
      { response := internalError, store := s2,
        calls := [Call.getAllUsers, Call.getUserCount] }
    | (.ok userCount, s2) =>
      { response :=
          { status := 200,
            body := [("success", Json.bool true),
                     ("count", Json.num userCount),
                     ("users", Json.arr (users.map fun r =>
                        [("id", r.id), ("username", r.username), ("email", r.email),
                         ("created_at", r.created_at)]))] },
        store := s2,
        calls := [Call.getAllUsers, Call.getUserCount] }

/-- Handler of `GET /api/health`. -/
def health : Response :=
  { status := 200, body := [("status", Json.str "OK"), ("message", Json.str "Server is running")] }

/-- The 404 handler, registered with `app.use` for every remaining path. -/
def notFound : Response :=
  { status := 404, body := failureBody "Endpoint not found" }

/-- A request as routed by the application. -/
inductive Request where
  | health
  | register (body : RegisterBody)
  | login (body : LoginBody)
  | users
  | unmatched
  deriving DecidableEq, Repr

/-- Routing: the handler that answers a request. -/
def handle {σ : Type} (db : Database σ) (bc : Bcrypt) (env : Env) (req : Request) (s : σ) :
    Outcome σ :=
  match req with
  | .health => { response := health, store := s, calls := [] }
  | .register body => register db bc env body s
  | .login body => login db bc env body s
  | .users => listUsers db s
  | .unmatched => { response := notFound, store := s, calls := [] }

/-- The store after a sequence of requests handled one after the other, each with its own
environment. -/
def runStore {σ : Type} (db : Database σ) (bc : Bcrypt) (reqs : List (Env × Request)) (s : σ) :
    σ :=
  reqs.foldl (fun st er => (handle db bc er.1 er.2 st).store) s

/-! ## database.js -/

/-- The `users` table: its rows in insertion order. -/
abbrev Table := List Row

/-- The object `database` exported by `database.js`, over the `users` table.

* `createUser`: the `INSERT` is rejected when it violates `id TEXT PRIMARY KEY` or
  `email TEXT UNIQUE`; otherwise the row is appended and the promise resolves to
  `{ id: this.lastID, ...user }`, in which the spread of `user` overrides `id`.
* `findUserByEmail`: `SELECT * FROM users WHERE email = ?` through `db.get`, the first
  matching row or `undefined`.
* `getAllUsers`: `SELECT id, username, email, created_at FROM users`.
* `userExists`: `SELECT COUNT(*) as count FROM users WHERE email = ?`, then `count > 0`.
* `getUserCount`: `SELECT COUNT(*) as count FROM users`. -/
def database : Database Table :=
  { createUser := fun user t =>
      if t.any (fun r => r.id == user.id) then
        (.error (DbError.constraint "users.id"), t)
      else if t.any (fun r => r.email == user.email) then
        (.error (DbError.constraint "users.email"), t)
      else
        (.ok user,
         t ++ [{ id := user.id, username := user.username, email := user.email,
                 password := user.password, created_at := user.createdAt }])
    findUserByEmail := fun email t =>
      (.ok (t.find? fun r => r.email == email), t)
    getAllUsers := fun t =>
      (.ok (t.map fun r =>
          { id := r.id, username := r.username, email := r.email,
            created_at := r.created_at }),
       t)
    userExists := fun email t =>
      (.ok (decide ((t.filter fun r => r.email == email).length > 0)), t)
    getUserCount := fun t =>
      (.ok t.length, t) }

/-! ## Validation helpers (script.js, tests/backend/validation.test.js) -/

/-- Regular expressions over characters, as far as the email pattern needs them. -/
inductive Re where
  | never
  | eps
  | set (p : Char → Bool)
  | seq (a b : Re)
  | alt (a b : Re)
  | star (a : Re)

/-- Whether the expression matches the empty string. -/
def Re.nullable : Re → Bool
  | .never => false
  | .eps => true
  | .set _ => false
  | .seq a b => a.nullable && b.nullable
  | .alt a b => a.nullable || b.nullable
  | .star _ => true

/-- The derivative of an expression by a character. -/
def Re.deriv : Re → Char → Re
  | .never, _ => .never
  | .eps, _ => .never
  | .set p, c => if p c then .eps else .never
  | .seq a b, c =>
    if a.nullable then .alt (.seq (a.deriv c) b) (b.deriv c) else .seq (a.deriv c) b
  | .alt a b, c => .alt (a.deriv c) (b.deriv c)
  | .star a, c => .seq (a.deriv c) (.star a)

/-- Whether the whole list of characters matches (`^...$`). -/
def Re.test (r : Re) (s : List Char) : Bool :=
  (s.foldl Re.deriv r).nullable

/-- One or more repetitions, `r+`. -/
def Re.plus (r : Re) : Re := .seq r (.star r)

/-- The language of an expression: the lists of characters it denotes. -/
inductive Re.Matches : Re → List Char → Prop where
  | eps : Re.Matches .eps []
  | set {p : Char → Bool} {c : Char} : p c = true → Re.Matches (.set p) [c]
  | seq {a b : Re} {s t : List Char} :
    Re.Matches a s → Re.Matches b t → Re.Matches (.seq a b) (s ++ t)
  | altL {a b : Re} {s : List Char} : Re.Matches a s → Re.Matches (.alt a b) s
  | altR {a b : Re} {s : List Char} : Re.Matches b s → Re.Matches (.alt a b) s
  | starNil {a : Re} : Re.Matches (.star a) []
  | starCons {a : Re} {s t : List Char} :
    Re.Matches a s → Re.Matches (.star a) t → Re.Matches (.star a) (s ++ t)

/-- The class `\s` of JavaScript regular expressions. -/
def isJsWhitespace (c : Char) : Bool :=
  let n := c.toNat
  n == 0x09 || n == 0x0A || n == 0x0B || n == 0x0C || n == 0x0D || n == 0x20 ||
  n == 0xA0 || n == 0x1680 || (0x2000 ≤ n && n ≤ 0x200A) || n == 0x2028 || n == 0x2029 ||
  n == 0x202F || n == 0x205F || n == 0x3000 || n == 0xFEFF

/-- The class `[^\s@]`. -/
def notSpaceAt (c : Char) : Bool := !(isJsWhitespace c) && c != '@'

/-- The pattern `/^[^\s@]+@[^\s@]+\.[^\s@]+$/`. -/
def emailRegex : Re :=
  .seq (Re.plus (.set notSpaceAt))
    (.seq (.set (· == '@'))
      (.seq (Re.plus (.set notSpaceAt))
        (.seq (.set (· == '.')) (Re.plus (.set notSpaceAt)))))

/-- The helper `isValidEmail(email)`: `emailRegex.test(email)`. -/
def isValidEmail (email : String) : Bool :=
  emailRegex.test email.data

/-- The characterisation of valid emails in the words of C20: no white space, a non-empty
run of characters other than `@` before a single `@`, and after it a non-empty run of
characters other than `@` that contains at least one `.`. -/
def claimedValidEmail (email : String) : Bool :=
  let cs := email.data
  let before := cs.takeWhile (· != '@')
  let after := (cs.dropWhile (· != '@')).drop 1
  !cs.any isJsWhitespace && cs.count '@' == 1 && before != [] && after != [] &&
    after.contains '.'

/-- The `.length` of a JavaScript string: its number of UTF-16 code units. -/
def jsLength (s : String) : Nat :=
  (s.data.map fun c => if c.toNat < 0x10000 then 1 else 2).sum

/-! ## Runs of requests and views of responses -/

/-- The responses to a sequence of requests handled one after the other, in order. -/
def runResponses {σ : Type} (db : Database σ) (bc : Bcrypt) :
    List (Env × Request) → σ → List Response
  | [], _ => []
  | er :: rest, s =>
    (handle db bc er.1 er.2 s).response ::
      runResponses db bc rest (handle db bc er.1 er.2 s).store

/-- The id of the account a response announces as registered: `body.user.id` of a response
with status 201. -/
def registeredId (r : Response) : Option String :=
  if r.status = 201 then
    match r.body.lookup "user" with
    | some (Json.obj o) => o.lookup "id"
    | _ => none
  else none

/-- The token a response carries: `body.token`. -/
def issuedToken (r : Response) : Option String :=
  match r.body.lookup "token" with
  | some (Json.str t) => some t
  | _ => none

/-- A body that carries a boolean `success` property and a string `message` property. -/
def HasSuccessAndMessage (body : List (String × Json)) : Prop :=
  (∃ b, body.lookup "success" = some (Json.bool b)) ∧
    (∃ m, body.lookup "message" = some (Json.str m))

/-! ## script.js: client-side validation -/

/-- The method `trim` of JavaScript strings: leading and trailing white space and line
terminators removed (the same characters as the class `\s`). -/
def jsTrim (s : String) : String :=
  String.mk ((s.data.dropWhile isJsWhitespace).reverse.dropWhile isJsWhitespace).reverse

/-- A string that consists only of white space (the empty string included). -/
def whitespaceOnly (s : String) : Bool :=
  s.data.all isJsWhitespace

/-- A message element: its `textContent` and `className`. -/
structure MessageElement where
  textContent : String
  className : String
  deriving DecidableEq, Repr

/-- The part of the document the validators touch: the two message elements and the ids of
the inputs whose class list contains `error`. -/
structure Dom where
  loginMessage : MessageElement
  registerMessage : MessageElement
  errorInputs : List String
  deriving DecidableEq, Repr

/-- The helper `showMessage(element, message, type)`, as the new state of the element. -/
def showMessage (message type : String) : MessageElement :=
  { textContent := message, className := "message " ++ type }

/-- The helper `clearInputErrors()`: `error` removed from every input. -/
def clearInputErrors (dom : Dom) : Dom :=
  { dom with errorInputs := [] }

/-- The call `document.getElementById(id).classList.add('error')`. -/
def addError (id : String) (dom : Dom) : Dom :=
  { dom with errorInputs := if id ∈ dom.errorInputs then dom.errorInputs
                            else dom.errorInputs ++ [id] }

/-- The validator `validateLoginForm(email, password)`: the value returned and the document
it leaves. -/
def validateLoginForm (email password : String) (dom : Dom) : Bool × Dom :=
  let dom := clearInputErrors dom
  let isValid := true
  let (isValid, dom) :=
    if jsTrim email == "" then
      (false, { addError "loginEmail" dom with
                loginMessage := showMessage "Email is required" "error" })
    else if !isValidEmail email then
      (false, { addError "loginEmail" dom with
                loginMessage := showMessage "Please enter a valid email address" "error" })
    else (isValid, dom)
  let (isValid, dom) :=
    if jsTrim password == "" then
      (false, { addError "loginPassword" dom with
                loginMessage := showMessage "Password is required" "error" })
    else (isValid, dom)
  (isValid, dom)

/-- The validator `validateRegisterForm(username, email, password, confirmPassword)`: the
value returned and the document it leaves. -/
def validateRegisterForm (username email password confirmPassword : String) (dom : Dom) :
    Bool × Dom :=
  let dom := clearInputErrors dom
  let isValid := true
  let (isValid, dom) :=
    if jsTrim username == "" then
      (false, { addError "registerUsername" dom with
                registerMessage := showMessage "Username is required" "error" })
    else if jsLength username < 3 then
      (false, { addError "registerUsername" dom with
                registerMessage :=
                  showMessage "Username must be at least 3 characters long" "error" })
    else (isValid, dom)
  let (isValid, dom) :=
    if jsTrim email == "" then
      (false, { addError "registerEmail" dom with
                registerMessage := showMessage "Email is required" "error" })
    else if !isValidEmail email then
      (false, { addError "registerEmail" dom with
                registerMessage := showMessage "Please enter a valid email address" "error" })
    else (isValid, dom)
  let (isValid, dom) :=
    if jsTrim password == "" then
      (false, { addError "registerPassword" dom with
                registerMessage := showMessage "Password is required" "error" })
    else if jsLength password < 6 then
      (false, { addError "registerPassword" dom with
                registerMessage :=
                  showMessage "Password must be at least 6 characters long" "error" })
    else (isValid, dom)
  let (isValid, dom) :=
    if jsTrim confirmPassword == "" then
      (false, { addError "confirmPassword" dom with
                registerMessage := showMessage "Please confirm your password" "error" })
    else if password != confirmPassword then
      (false, { addError "confirmPassword" dom with
                registerMessage := showMessage "Passwords do not match" "error" })
    else (isValid, dom)
  (isValid, dom)

/-- The message of the email block of `validateLoginForm`, when the block fails. -/
def loginEmailError (email : String) : Option String :=
  if jsTrim email == "" then some "Email is required"
  else if !isValidEmail email then some "Please enter a valid email address"
  else none

/-- The message of the password block of `validateLoginForm`, when the block fails. -/
def loginPasswordError (password : String) : Option String :=
  if jsTrim password == "" then some "Password is required" else none

/-- The message of the username block of `validateRegisterForm`, when the block fails. -/
def usernameError (username : String) : Option String :=
  if jsTrim username == "" then some "Username is required"
  else if jsLength username < 3 then some "Username must be at least 3 characters long"
  else none

/-- The message of the email block of `validateRegisterForm`, when the block fails. -/
def emailError (email : String) : Option String :=
  if jsTrim email == "" then some "Email is required"
  else if !isValidEmail email then some "Please enter a valid email address"
  else none

/-- The message of the password block of `validateRegisterForm`, when the block fails. -/
def passwordError (password : String) : Option String :=
  if jsTrim password == "" then some "Password is required"
  else if jsLength password < 6 then some "Password must be at least 6 characters long"
  else none

/-- The message of the confirmation block of `validateRegisterForm`, when the block fails. -/
def confirmPasswordError (password confirmPassword : String) : Option String :=
  if jsTrim confirmPassword == "" then some "Please confirm your password"
  else if password != confirmPassword then some "Passwords do not match"
  else none

/-- The blocks of a validator in source order: the id of the input each block marks and the
message it shows when it fails. -/
abbrev FieldErrors := List (String × Option String)

/-- The blocks of `validateLoginForm`. -/
def loginFormErrors (email password : String) : FieldErrors :=
  [("loginEmail", loginEmailError email), ("loginPassword", loginPasswordError password)]

/-- The blocks of `validateRegisterForm`. -/
def registerFormErrors (username email password confirmPassword : String) : FieldErrors :=
  [("registerUsername", usernameError username), ("registerEmail", emailError email),
   ("registerPassword", passwordError password),
   ("confirmPassword", confirmPasswordError password confirmPassword)]

/-- The messages shown by the failing blocks, in the order they are shown. -/
def FieldErrors.messages (errs : FieldErrors) : List String :=
  errs.filterMap fun e => e.2

/-- The ids of the inputs marked by the failing blocks, in the order they are marked. -/
def FieldErrors.marked (errs : FieldErrors) : List String :=
  (errs.filter fun e => e.2.isSome).map fun e => e.1

/-- The message element after the failing blocks have shown their messages one after the
other: the last message shown, or the element as it was when no block failed. -/
def FieldErrors.shown (errs : FieldErrors) (before : MessageElement) : MessageElement :=
  match errs.messages.getLast? with
  | some m => showMessage m "error"
  | none => before

/-! ## tests/backend/validation.test.js: the registration rules -/

/-- The object `{ isValid, message }` returned by `validateRegistration`. -/
structure ValidationResult where
  isValid : Bool
  message : String
  deriving DecidableEq, Repr

/-- The function `validateRegistration(username, email, password)` over the array `users`:
`users.find(user => user.email === email)` is a lookup of the property `email`. -/
def validateRegistration (users : List JsObject) (username email password : Option String) :
    ValidationResult :=
  if Falsy username || Falsy email || Falsy password then
    { isValid := false, message := "Username, email, and password are required" }
  else if jsLength (username.getD "") < 3 then
    { isValid := false, message := "Username must be at least 3 characters long" }
  else if jsLength (password.getD "") < 6 then
    { isValid := false, message := "Password must be at least 6 characters long" }
  else if !isValidEmail (email.getD "") then
    { isValid := false, message := "Please enter a valid email address" }
  else if (users.find? fun user => user.lookup "email" == some (email.getD "")).isSome then
    { isValid := false, message := "User with this email already exists" }
  else
    { isValid := true, message := "Validation passed" }

/-- The characterisation of valid emails in the words of C28: no white space, exactly one
`@`, at least one character before it, and after it a part that contains a `.` which is
neither its first nor its last character. -/
def specValidEmail (email : String) : Bool :=
  let cs := email.data
  let before := cs.takeWhile (· != '@')
  let after := (cs.dropWhile (· != '@')).drop 1
  !cs.any isJsWhitespace && cs.count '@' == 1 && before != [] &&
    ((after.drop 1).dropLast).contains '.'

/-! ## The object createUser resolves to -/

/-- Setting a property of an object: an existing property keeps its place and takes the new
value, a new one is added last. -/
def setProperty (o : List (String × Json)) (k : String) (v : Json) : List (String × Json) :=
  if o.any (fun kv => kv.1 == k) then o.map fun kv => if kv.1 == k then (k, v) else kv
  else o ++ [(k, v)]

/-- The object literal `{ id: this.lastID, ...user }` that `createUser` resolves to: the
properties of `user` are set, in order, on the object `{ id: lastID }`. -/
def createUserResolved (lastID : Nat) (user : List (String × Json)) : List (String × Json) :=
  user.foldl (fun o kv => setProperty o kv.1 kv.2) [("id", Json.num lastID)]

/-- The properties of the object `newUser`. -/
def User.toRecord (u : User) : List (String × Json) :=
  [("id", Json.str u.id), ("username", Json.str u.username), ("email", Json.str u.email),
   ("password", Json.str u.password), ("createdAt", Json.str u.createdAt)]

/-! ## Register requests in flight -/

/-- A register request between two of its `await` points: not started; resumed after
`userExists` resolved to false; resumed after `bcrypt.hash` resolved; answered. -/
inductive RegisterTask where
  | start (body : RegisterBody)
  | hashing (username email password : String)
  | inserting (username email hashedPassword : String)
  | finished (response : Response)
  deriving DecidableEq, Repr

/-- One turn of a register request: the code of the handler from one `await` to the next,
with the awaited operation. -/
def registerStep {σ : Type} (db : Database σ) (bc : Bcrypt) (env : Env) :
    RegisterTask → σ → RegisterTask × σ
  | .start body, s =>
    if Falsy body.username || Falsy body.email || Falsy body.password then
      (.finished { status := 400,
                   body := failureBody "Username, email, and password are required" }, s)
    else
      match db.userExists (body.email.getD "") s with
      | (.error _, s1) => (.finished internalError, s1)
      | (.ok true, s1) =>
        (.finished { status := 400,
                     body := failureBody "User with this email already exists" }, s1)
      | (.ok false, s1) =>
        (.hashing (body.username.getD "") (body.email.getD "") (body.password.getD ""), s1)
  | .hashing username email password, s =>
    match bc.hash password 10 env.salt with
    | .error _ => (.finished internalError, s)
    | .ok hashedPassword => (.inserting username email hashedPassword, s)
  | .inserting username email hashedPassword, s =>
    let newUser : User :=
      { id := toString env.now, username := username, email := email,
        password := hashedPassword, createdAt := env.isoNow }
    match db.createUser newUser s with
    | (.error _, s2) => (.finished internalError, s2)
    | (.ok _, s2) =>
      (.finished
        { status := 201,
          body := [("success", Json.bool true),
                   ("message", Json.str "User registered successfully"),
                   ("user", publicUser newUser.id newUser.username newUser.email)] }, s2)
  | .finished response, s => (.finished response, s)

/-- Two register requests `A` and `B` in flight over one store, run by a schedule: `true`
gives the next turn to `A`, `false` to `B`. -/
def runPair {σ : Type} (db : Database σ) (bc : Bcrypt) (envA envB : Env) :
    List Bool → RegisterTask × RegisterTask × σ → RegisterTask × RegisterTask × σ
  | [], st => st
  | true :: rest, (a, b, s) =>
    runPair db bc envA envB rest ((registerStep db bc envA a s).1, b,
      (registerStep db bc envA a s).2)
  | false :: rest, (a, b, s) =>
    runPair db bc envA envB rest (a, (registerStep db bc envB b s).1,
      (registerStep db bc envB b s).2)

/-- A register request for the given email that has passed the existence check: it is about
to hash, about to insert, or answered with 201 or with the internal error. -/
def RegisterTask.PastCheck (email : String) : RegisterTask → Prop
  | .start _ => False
  | .hashing _ e _ => e = email
  | .inserting _ e _ => e = email
  | .finished r => r.status = 201 ∨ r = internalError

/-- The number of accounts a request has created: 1 once it is answered 201. -/
def RegisterTask.created : RegisterTask → Nat
  | .finished r => if r.status = 201 then 1 else 0
  | _ => 0

/-- The number of rows of the table with the given email. -/
def countEmail (email : String) (t : Table) : Nat :=
  (t.filter fun r => r.email == email).length

/-! ## Sample instances used to exercise the theorems -/

/-- A stand-in for bcrypt: the hash is the salt, a `$`, and the data; comparing reads the
data back after the first `$`. -/
def sampleBcrypt : Bcrypt :=
  { hash := fun data _ salt => .ok (salt ++ "$" ++ data)
    compare := fun data encrypted =>
      .ok (decide ((encrypted.data.dropWhile fun c => c != '$') = '$' :: data.data)) }

/-- An environment for the samples. -/
def sampleEnv : Env :=
  { now := 1700000000000, isoNow := "2023-11-14T22:13:20.000Z", salt := "abcd" }

/-- The registration of the scenario in the specification. -/
def aliceBody : RegisterBody :=
  { username := some "alice", email := some "alice@example.com", password := some "secret1" }

/-- The row of an account registered in the same millisecond as `sampleEnv.now`. -/
def bobRow : Row :=
  { id := "1700000000000", username := "bob", email := "bob@example.com",
    password := "wxyz$hunter22", created_at := "2023-11-14T22:13:20.000Z" }

/-- A later environment. -/
def laterEnv : Env :=
  { now := 1700000000500, isoNow := "2023-11-14T22:13:20.500Z", salt := "efgh" }

/-- Requests that follow the registration of alice: a registration of carol, a second
registration of the email of alice, a failed login and a listing. -/
def sampleRequests : List (Env × Request) :=
  [(laterEnv, Request.register
      { username := some "carol", email := some "carol@example.com",
        password := some "hunter22" }),
   (laterEnv, Request.register
      { username := some "alice2", email := some "alice@example.com",
        password := some "secret2" }),
   (laterEnv, Request.login { email := some "alice@example.com", password := some "wrong" }),
   (laterEnv, Request.users)]

/-- A store whose every operation is rejected with the given error. -/
def failingDatabase (err : DbError) : Database Table :=
  { createUser := fun _ t => (.error err, t)
    findUserByEmail := fun _ t => (.error err, t)
    getAllUsers := fun t => (.error err, t)
    userExists := fun _ t => (.error err, t)
    getUserCount := fun t => (.error err, t) }

/-- The document before any validation: no message shown, no input marked. -/
def emptyDom : Dom :=
  { loginMessage := { textContent := "", className := "message" },
    registerMessage := { textContent := "", className := "message" },
    errorInputs := [] }

/-! ## The register handler -/

/-- C1: a register request in which username, email or password is absent or the empty
string is answered 400 `Username, email, and password are required`; the handler makes no call
to the store (nor to bcrypt) and leaves the store as it was. -/
theorem register_missing_fields {σ : Type} (db : Database σ) (bc : Bcrypt) (env : Env)
    (body : RegisterBody) (s : σ)
    (h : (body.username = none ∨ body.username = some "") ∨
         (body.email = none ∨ body.email = some "") ∨
         (body.password = none ∨ body.password = some "")) :
    (register db bc env body s).response =
        { status := 400,
          body := [("success", Json.bool false),
                   ("message", Json.str "Username, email, and password are required")] } ∧
      (register db bc env body s).calls = [] ∧
      (register db bc env body s).store = s := by
  have hf : (Falsy body.username || Falsy body.email || Falsy body.password) = true := by
    rcases h with (h | h) | (h | h) | (h | h) <;> simp [h, Falsy]
  simp [register, hf, failureBody]

/-- Witness of C1: a body without username, against the empty table. -/
theorem register_missing_fields_witness :
    (register database sampleBcrypt sampleEnv
        { username := none, email := some "test@example.com", password := some "password123" }
        []).response =
        { status := 400,
          body := [("success", Json.bool false),
                   ("message", Json.str "Username, email, and password are required")] } ∧
      (register database sampleBcrypt sampleEnv
        { username := none, email := some "test@example.com", password := some "password123" }
        []).calls = [] ∧
      (register database sampleBcrypt sampleEnv
        { username := none, email := some "test@example.com", password := some "password123" }
        []).store = [] :=
  register_missing_fields database sampleBcrypt sampleEnv
    { username := none, email := some "test@example.com", password := some "password123" } []
    (Or.inl (Or.inl rfl))

/-- C2: a register request with three non-empty fields whose email the store reports as
existing is answered 400 `User with this email already exists`; the only call made is the
`userExists` query, so `createUser` is not called and the store is left in the state the query
returned, which for the `users` table is the table itself. -/
theorem register_email_exists {σ : Type} (db : Database σ) (bc : Bcrypt) (env : Env)
    (username email password : String) (s s1 : σ)
    (hu : username ≠ "") (he : email ≠ "") (hp : password ≠ "")
    (hex : db.userExists email s = (.ok true, s1)) :
    (register db bc env
        { username := some username, email := some email, password := some password }
        s).response =
        { status := 400,
          body := [("success", Json.bool false),
                   ("message", Json.str "User with this email already exists")] } ∧
      (register db bc env
        { username := some username, email := some email, password := some password }
        s).calls = [Call.userExists email] ∧
      (register db bc env
        { username := some username, email := some email, password := some password }
        s).store = s1 ∧
      ∀ t : Table, (database.userExists email t).2 = t := by
  simp [register, Falsy, hu, he, hp, hex, failureBody, database]

/-- Witness of C2: a second registration of `alice@example.com`. -/
theorem register_email_exists_witness :
    (register database sampleBcrypt sampleEnv
        { username := some "alice2", email := some "alice@example.com",
          password := some "secret2" }
        (register database sampleBcrypt sampleEnv aliceBody []).store).response =
        { status := 400,
          body := [("success", Json.bool false),
                   ("message", Json.str "User with this email already exists")] } ∧
      (register database sampleBcrypt sampleEnv
        { username := some "alice2", email := some "alice@example.com",
          password := some "secret2" }
        (register database sampleBcrypt sampleEnv aliceBody []).store).calls =
        [Call.userExists "alice@example.com"] ∧
      (register database sampleBcrypt sampleEnv
        { username := some "alice2", email := some "alice@example.com",
          password := some "secret2" }
        (register database sampleBcrypt sampleEnv aliceBody []).store).store =
        (register database sampleBcrypt sampleEnv aliceBody []).store ∧
      ∀ t : Table, (database.userExists "alice@example.com" t).2 = t :=
  register_email_exists database sampleBcrypt sampleEnv "alice2" "alice@example.com"
    "secret2" (register database sampleBcrypt sampleEnv aliceBody []).store
    (register database sampleBcrypt sampleEnv aliceBody []).store
    (by decide) (by decide) (by decide) rfl

/-- The register handler on a request that passes every check, as one equation. -/
theorem register_eq_of_created {σ : Type} (db : Database σ) (bc : Bcrypt) (env : Env)
    (username email password hashed : String) (s s1 s2 : σ) (created : User)
    (hu : username ≠ "") (he : email ≠ "") (hp : password ≠ "")
    (hex : db.userExists email s = (.ok false, s1))
    (hhash : bc.hash password 10 env.salt = .ok hashed)
    (hins : db.createUser
        { id := toString env.now, username := username, email := email, password := hashed,
          createdAt := env.isoNow } s1 = (.ok created, s2)) :
    register db bc env
        { username := some username, email := some email, password := some password } s =
      { response :=
          { status := 201,
            body := [("success", Json.bool true),
                     ("message", Json.str "User registered successfully"),
                     ("user", Json.obj [("id", toString env.now), ("username", username),
                                        ("email", email)])] },
        store := s2,
        calls := [Call.userExists email, Call.bcryptHash password 10,
                  Call.createUser
                    { id := toString env.now, username := username, email := email,
                      password := hashed, createdAt := env.isoNow }] } := by
  simp [register, Falsy, hu, he, hp, hex, hhash, hins, publicUser]

/-- The register handler when the store reports the email as existing. -/
theorem register_eq_of_exists {σ : Type} (db : Database σ) (bc : Bcrypt) (env : Env)
    (username email password : String) (s s1 : σ)
    (hu : username ≠ "") (he : email ≠ "") (hp : password ≠ "")
    (hex : db.userExists email s = (.ok true, s1)) :
    register db bc env
        { username := some username, email := some email, password := some password } s =
      { response := { status := 400,
                      body := failureBody "User with this email already exists" },
        store := s1, calls := [Call.userExists email] } := by
  simp [register, Falsy, hu, he, hp, hex]

/-- A register request answered 201 passed every check: its three fields are non-empty
strings, the store reported the email as not existing, hashing succeeded and so did the
insert. -/
theorem register_created_inv {σ : Type} (db : Database σ) (bc : Bcrypt) (env : Env)
    (body : RegisterBody) (s : σ)
    (hok : (register db bc env body s).response.status = 201) :
    ∃ username email password hashed s1 s2 created,
      body = { username := some username, email := some email, password := some password } ∧
      username ≠ "" ∧ email ≠ "" ∧ password ≠ "" ∧
      db.userExists email s = (.ok false, s1) ∧
      bc.hash password 10 env.salt = .ok hashed ∧
      db.createUser
        { id := toString env.now, username := username, email := email, password := hashed,
          createdAt := env.isoNow } s1 = (.ok created, s2) := by
  obtain ⟨u, e, p⟩ := body
  cases u with
  | none => simp [register, Falsy] at hok
  | some username =>
  cases e with
  | none => simp [register, Falsy] at hok
  | some email =>
  cases p with
  | none => simp [register, Falsy] at hok
  | some password =>
  by_cases hu : username = ""
  · simp [register, Falsy, hu] at hok
  by_cases he : email = ""
  · simp [register, Falsy, he] at hok
  by_cases hp : password = ""
  · simp [register, Falsy, hp] at hok
  rcases hex : db.userExists email s with ⟨r, s1⟩
  cases r with
  | error err => simp [register, Falsy, hu, he, hp, hex, internalError] at hok
  | ok b =>
  cases b with
  | true => simp [register, Falsy, hu, he, hp, hex] at hok
  | false =>
  cases hhash : bc.hash password 10 env.salt with
  | error err => simp [register, Falsy, hu, he, hp, hex, hhash, internalError] at hok
  | ok hashed =>
  rcases hins : db.createUser
      { id := toString env.now, username := username, email := email, password := hashed,
        createdAt := env.isoNow } s1 with ⟨r, s2⟩
  cases r with
  | error err => simp [register, Falsy, hu, he, hp, hex, hhash, hins, internalError] at hok
  | ok created =>
  exact ⟨username, email, password, hashed, s1, s2, created, rfl, hu, he, hp, hex, hhash, hins⟩

/-- C3: a register request with non-empty fields whose email the store reports as not
existing and whose insert succeeds calls `createUser` exactly once, with the record
`newUser`, and is answered 201 `User registered successfully` with
`user = {id, username, email}`: `username` and `email` are the submitted strings and `id` is
the id of the record passed to `createUser`. -/
theorem register_success {σ : Type} (db : Database σ) (bc : Bcrypt) (env : Env)
    (username email password hashed : String) (s s1 s2 : σ) (created : User)
    (hu : username ≠ "") (he : email ≠ "") (hp : password ≠ "")
    (hex : db.userExists email s = (.ok false, s1))
    (hhash : bc.hash password 10 env.salt = .ok hashed)
    (hins : db.createUser
        { id := toString env.now, username := username, email := email, password := hashed,
          createdAt := env.isoNow } s1 = (.ok created, s2)) :
    ∃ newUser : User,
      (register db bc env
          { username := some username, email := some email, password := some password }
          s).calls =
          [Call.userExists email, Call.bcryptHash password 10, Call.createUser newUser] ∧
      newUser.username = username ∧ newUser.email = email ∧
      (register db bc env
          { username := some username, email := some email, password := some password }
          s).response =
          { status := 201,
            body := [("success", Json.bool true),
                     ("message", Json.str "User registered successfully"),
                     ("user", Json.obj [("id", newUser.id), ("username", username),
                                        ("email", email)])] } ∧
      (register db bc env
          { username := some username, email := some email, password := some password }
          s).store = s2 := by
  refine ⟨{ id := toString env.now, username := username, email := email, password := hashed,
            createdAt := env.isoNow }, ?_⟩
  rw [register_eq_of_created db bc env username email password hashed s s1 s2 created
    hu he hp hex hhash hins]
  exact ⟨rfl, rfl, rfl, rfl, rfl⟩

/-- Witness of C3: the registration of `" alice "` (with surrounding blanks, which are kept)
against the empty table. -/
theorem register_success_witness :
    ∃ newUser : User,
      (register database sampleBcrypt sampleEnv
          { username := some " alice ", email := some "alice@example.com",
            password := some "secret1" }
          []).calls =
          [Call.userExists "alice@example.com", Call.bcryptHash "secret1" 10,
           Call.createUser newUser] ∧
      newUser.username = " alice " ∧ newUser.email = "alice@example.com" ∧
      (register database sampleBcrypt sampleEnv
          { username := some " alice ", email := some "alice@example.com",
            password := some "secret1" }
          []).response =
          { status := 201,
            body := [("success", Json.bool true),
                     ("message", Json.str "User registered successfully"),
                     ("user", Json.obj [("id", newUser.id), ("username", " alice "),
                                        ("email", "alice@example.com")])] } ∧
      (register database sampleBcrypt sampleEnv
          { username := some " alice ", email := some "alice@example.com",
            password := some "secret1" }
          []).store =
          [{ id := "1700000000000", username := " alice ", email := "alice@example.com",
             password := "abcd$secret1", created_at := "2023-11-14T22:13:20.000Z" }] :=
  register_success database sampleBcrypt sampleEnv " alice " "alice@example.com" "secret1"
    "abcd$secret1" [] []
    [{ id := "1700000000000", username := " alice ", email := "alice@example.com",
       password := "abcd$secret1", created_at := "2023-11-14T22:13:20.000Z" }]
    { id := "1700000000000", username := " alice ", email := "alice@example.com",
      password := "abcd$secret1", createdAt := "2023-11-14T22:13:20.000Z" }
    (by decide) (by decide) (by decide) rfl rfl rfl

/-- C4: on every successful registration (status 201) the record passed to `createUser`
has as its password the value that `bcrypt.hash(password, 10)` returned for the submitted
password and the drawn salt; provided bcrypt never returns its input as the hash, that value
is not the submitted plaintext. -/
theorem register_stores_hash {σ : Type} (db : Database σ) (bc : Bcrypt) (env : Env)
    (body : RegisterBody) (s : σ)
    (hbc : ∀ data h, bc.hash data 10 env.salt = .ok h → h ≠ data)
    (hok : (register db bc env body s).response.status = 201) :
    ∃ email password hashed newUser,
      body.password = some password ∧
      bc.hash password 10 env.salt = .ok hashed ∧
      (register db bc env body s).calls =
        [Call.userExists email, Call.bcryptHash password 10, Call.createUser newUser] ∧
      newUser.password = hashed ∧
      newUser.password ≠ password := by
  obtain ⟨username, email, password, hashed, s1, s2, created, rfl, hu, he, hp, hex, hhash,
    hins⟩ := register_created_inv db bc env body s hok
  refine ⟨email, password, hashed,
    { id := toString env.now, username := username, email := email, password := hashed,
      createdAt := env.isoNow }, rfl, hhash, ?_, rfl, hbc password hashed hhash⟩
  rw [register_eq_of_created db bc env username email password hashed s s1 s2 created
    hu he hp hex hhash hins]

/-- Witness of C4: the registration of alice stores `abcd$secret1`, not `secret1`. -/
theorem register_stores_hash_witness :
    ∃ email password hashed newUser,
      aliceBody.password = some password ∧
      sampleBcrypt.hash password 10 sampleEnv.salt = .ok hashed ∧
      (register database sampleBcrypt sampleEnv aliceBody []).calls =
        [Call.userExists email, Call.bcryptHash password 10, Call.createUser newUser] ∧
      newUser.password = hashed ∧
      newUser.password ≠ password :=
  register_stores_hash database sampleBcrypt sampleEnv aliceBody []
    (by
      intro data h hh heq
      simp only [sampleBcrypt, Except.ok.injEq] at hh
      have hlen := congrArg String.length (hh.trans heq)
      simp [sampleEnv, String.length_append] at hlen
      exact absurd hlen (by decide))
    (by decide)

/-! ## The login handler -/

/-- The login handler when the store has no account for the email. -/
theorem login_eq_of_not_found {σ : Type} (db : Database σ) (bc : Bcrypt) (env : Env)
    (email password : String) (s s1 : σ)
    (he : email ≠ "") (hp : password ≠ "")
    (hfind : db.findUserByEmail email s = (.ok none, s1)) :
    login db bc env { email := some email, password := some password } s =
      { response := { status := 401, body := failureBody "Invalid credentials" },
        store := s1, calls := [Call.findUserByEmail email] } := by
  simp [login, Falsy, he, hp, hfind]

/-- The login handler when the store returns an account and bcrypt answers for it. -/
theorem login_eq_of_found {σ : Type} (db : Database σ) (bc : Bcrypt) (env : Env)
    (email password : String) (s s1 : σ) (user : Row) (verdict : Bool)
    (he : email ≠ "") (hp : password ≠ "")
    (hfind : db.findUserByEmail email s = (.ok (some user), s1))
    (hcmp : bc.compare password user.password = .ok verdict) :
    login db bc env { email := some email, password := some password } s =
      { response :=
          if verdict then
            { status := 200,
              body := [("success", Json.bool true),
                       ("message", Json.str "Login successful"),
                       ("token", Json.str ("token_" ++ user.id ++ "_" ++ toString env.now)),
                       ("user", Json.obj [("id", user.id), ("username", user.username),
                                          ("email", user.email)])] }
          else { status := 401, body := failureBody "Invalid credentials" },
        store := s1,
        calls := [Call.findUserByEmail email, Call.bcryptCompare password user.password] } := by
  cases verdict <;> simp [login, Falsy, he, hp, hfind, hcmp, publicUser]

/-- C5: for login requests with non-empty email and password, the response when the store
has no account for the email and the response when it has one whose stored hash the password
does not verify against are the same response, 401 `Invalid credentials`. -/
theorem login_failure_uniform {σ : Type} (db : Database σ) (bc : Bcrypt) (env env' : Env)
    (email password email' password' : String) (s s1 s' s1' : σ) (user : Row)
    (he : email ≠ "") (hp : password ≠ "") (he' : email' ≠ "") (hp' : password' ≠ "")
    (hnone : db.findUserByEmail email s = (.ok none, s1))
    (hsome : db.findUserByEmail email' s' = (.ok (some user), s1'))
    (hbad : bc.compare password' user.password = .ok false) :
    (login db bc env { email := some email, password := some password } s).response =
        { status := 401,
          body := [("success", Json.bool false), ("message", Json.str "Invalid credentials")] } ∧
      (login db bc env' { email := some email', password := some password' } s').response =
        { status := 401,
          body := [("success", Json.bool false), ("message", Json.str "Invalid credentials")] } ∧
      (login db bc env { email := some email, password := some password } s).response =
        (login db bc env' { email := some email', password := some password' } s').response := by
  rw [login_eq_of_not_found db bc env email password s s1 he hp hnone,
    login_eq_of_found db bc env' email' password' s' s1' user false he' hp' hsome hbad]
  simp [failureBody]

/-- Witness of C5: an unknown email and a wrong password for alice, after her registration. -/
theorem login_failure_uniform_witness :
    (login database sampleBcrypt sampleEnv
        { email := some "nonexistent@example.com", password := some "secret1" }
        (register database sampleBcrypt sampleEnv aliceBody []).store).response =
        { status := 401,
          body := [("success", Json.bool false), ("message", Json.str "Invalid credentials")] } ∧
      (login database sampleBcrypt sampleEnv
        { email := some "alice@example.com", password := some "wrong" }
        (register database sampleBcrypt sampleEnv aliceBody []).store).response =
        { status := 401,
          body := [("success", Json.bool false), ("message", Json.str "Invalid credentials")] } ∧
      (login database sampleBcrypt sampleEnv
        { email := some "nonexistent@example.com", password := some "secret1" }
        (register database sampleBcrypt sampleEnv aliceBody []).store).response =
        (login database sampleBcrypt sampleEnv
          { email := some "alice@example.com", password := some "wrong" }
          (register database sampleBcrypt sampleEnv aliceBody []).store).response :=
  login_failure_uniform database sampleBcrypt sampleEnv sampleEnv
    "nonexistent@example.com" "secret1" "alice@example.com" "wrong"
    (register database sampleBcrypt sampleEnv aliceBody []).store
    (register database sampleBcrypt sampleEnv aliceBody []).store
    (register database sampleBcrypt sampleEnv aliceBody []).store
    (register database sampleBcrypt sampleEnv aliceBody []).store
    { id := "1700000000000", username := "alice", email := "alice@example.com",
      password := "abcd$secret1", created_at := "2023-11-14T22:13:20.000Z" }
    (by decide) (by decide) (by decide) (by decide) rfl rfl rfl

/-- C6: a login request with non-empty email and password for which the store returns an
account whose stored hash the password verifies against is answered 200 with `success` true,
`Login successful`, the token `token_<id>_<Date.now()>` and `user = {id, username, email}`
taken from the stored account. -/
theorem login_success {σ : Type} (db : Database σ) (bc : Bcrypt) (env : Env)
    (email password : String) (s s1 : σ) (user : Row)
    (he : email ≠ "") (hp : password ≠ "")
    (hfind : db.findUserByEmail email s = (.ok (some user), s1))
    (hcmp : bc.compare password user.password = .ok true) :
    (login db bc env { email := some email, password := some password } s).response =
      { status := 200,
        body := [("success", Json.bool true),
                 ("message", Json.str "Login successful"),
                 ("token", Json.str ("token_" ++ user.id ++ "_" ++ toString env.now)),
                 ("user", Json.obj [("id", user.id), ("username", user.username),
                                    ("email", user.email)])] } := by
  rw [login_eq_of_found db bc env email password s s1 user true he hp hfind hcmp]
  rfl

/-- Witness of C6: alice logs in after her registration. -/
theorem login_success_witness :
    (login database sampleBcrypt sampleEnv
        { email := some "alice@example.com", password := some "secret1" }
        (register database sampleBcrypt sampleEnv aliceBody []).store).response =
      { status := 200,
        body := [("success", Json.bool true),
                 ("message", Json.str "Login successful"),
                 ("token", Json.str ("token_" ++ "1700000000000" ++ "_" ++
                    toString sampleEnv.now)),
                 ("user", Json.obj [("id", "1700000000000"), ("username", "alice"),
                                    ("email", "alice@example.com")])] } :=
  login_success database sampleBcrypt sampleEnv "alice@example.com" "secret1"
    (register database sampleBcrypt sampleEnv aliceBody []).store
    (register database sampleBcrypt sampleEnv aliceBody []).store
    { id := "1700000000000", username := "alice", email := "alice@example.com",
      password := "abcd$secret1", created_at := "2023-11-14T22:13:20.000Z" }
    (by decide) (by decide) rfl rfl

/-- C7: a login request in which email or password is absent or the empty string is
answered 400 `Email and password are required`; the handler makes no store lookup and no
bcrypt call, and leaves the store as it was. -/
theorem login_missing_fields {σ : Type} (db : Database σ) (bc : Bcrypt) (env : Env)
    (body : LoginBody) (s : σ)
    (h : (body.email = none ∨ body.email = some "") ∨
         (body.password = none ∨ body.password = some "")) :
    (login db bc env body s).response =
        { status := 400,
          body := [("success", Json.bool false),
                   ("message", Json.str "Email and password are required")] } ∧
      (login db bc env body s).calls = [] ∧
      (login db bc env body s).store = s := by
  have hf : (Falsy body.email || Falsy body.password) = true := by
    rcases h with (h | h) | (h | h) <;> simp [h, Falsy]
  simp [login, hf, failureBody]

/-- Witness of C7: a login body without password, after alice registered. -/
theorem login_missing_fields_witness :
    (login database sampleBcrypt sampleEnv
        { email := some "alice@example.com", password := none }
        (register database sampleBcrypt sampleEnv aliceBody []).store).response =
        { status := 400,
          body := [("success", Json.bool false),
                   ("message", Json.str "Email and password are required")] } ∧
      (login database sampleBcrypt sampleEnv
        { email := some "alice@example.com", password := none }
        (register database sampleBcrypt sampleEnv aliceBody []).store).calls = [] ∧
      (login database sampleBcrypt sampleEnv
        { email := some "alice@example.com", password := none }
        (register database sampleBcrypt sampleEnv aliceBody []).store).store =
        (register database sampleBcrypt sampleEnv aliceBody []).store :=
  login_missing_fields database sampleBcrypt sampleEnv
    { email := some "alice@example.com", password := none }
    (register database sampleBcrypt sampleEnv aliceBody []).store
    (Or.inr (Or.inl rfl))

/-! ## The handlers over the `users` table -/

/-- On the table, `userExists` answers whether some row has the email, and returns the table. -/
theorem database_userExists_eq (email : String) (t : Table) :
    database.userExists email t = (.ok (t.any fun r => r.email == email), t) := by
  have h : decide ((t.filter fun r => r.email == email).length > 0) =
      t.any fun r => r.email == email := by
    induction t with
    | nil => rfl
    | cons r t ih =>
      simp only [List.filter_cons, List.any_cons]
      by_cases hr : (r.email == email) = true
      · simp [hr]
      · simp only [hr, Bool.false_eq_true, if_false, Bool.false_or]
        exact ih
  simp only [database, h]

/-- On the table, `createUser` either leaves it as it was or appends the row of the user,
whose email and id no earlier row has. -/
theorem database_createUser_store (user : User) (t : Table) :
    (database.createUser user t).2 = t ∨
      ∃ row, (database.createUser user t).2 = t ++ [row] ∧
        (∀ r ∈ t, r.email ≠ row.email) ∧ (∀ r ∈ t, r.id ≠ row.id) := by
  simp only [database]
  split
  · exact Or.inl rfl
  · rename_i hid
    split
    · exact Or.inl rfl
    · rename_i hmail
      refine Or.inr ⟨_, rfl, ?_, ?_⟩
      · intro r hr heq
        exact hmail (List.any_eq_true.mpr ⟨r, hr, by simpa using heq⟩)
      · intro r hr heq
        exact hid (List.any_eq_true.mpr ⟨r, hr, by simpa using heq⟩)

/-- The store left by the register handler is the given one, the one left by `userExists`,
or the one left by `createUser` after `userExists`. -/
theorem register_store_cases {σ : Type} (db : Database σ) (bc : Bcrypt) (env : Env)
    (body : RegisterBody) (s : σ) :
    (register db bc env body s).store = s ∨
      (register db bc env body s).store = (db.userExists (body.email.getD "") s).2 ∨
      ∃ user, (register db bc env body s).store =
        (db.createUser user (db.userExists (body.email.getD "") s).2).2 := by
  by_cases hf : (Falsy body.username || Falsy body.email || Falsy body.password) = true
  · left
    simp [register, hf]
  right
  rcases hex : db.userExists (body.email.getD "") s with ⟨r, s1⟩
  cases r with
  | error err => left; simp [register, hf, hex]
  | ok b =>
  cases b with
  | true => left; simp [register, hf, hex]
  | false =>
  cases hhash : bc.hash (body.password.getD "") 10 env.salt with
  | error err => left; simp [register, hf, hex, hhash]
  | ok hashed =>
  right
  refine ⟨{ id := toString env.now, username := body.username.getD "",
            email := body.email.getD "", password := hashed, createdAt := env.isoNow }, ?_⟩
  rcases hins : db.createUser
      { id := toString env.now, username := body.username.getD "",
        email := body.email.getD "", password := hashed, createdAt := env.isoNow } s1
    with ⟨r, s2⟩
  cases r <;> simp [register, hf, hex, hhash, hins]

/-- The store left by the login handler is the given one or the one left by
`findUserByEmail`. -/
theorem login_store_cases {σ : Type} (db : Database σ) (bc : Bcrypt) (env : Env)
    (body : LoginBody) (s : σ) :
    (login db bc env body s).store = s ∨
      (login db bc env body s).store = (db.findUserByEmail (body.email.getD "") s).2 := by
  by_cases hf : (Falsy body.email || Falsy body.password) = true
  · left
    simp [login, hf]
  right
  rcases hfind : db.findUserByEmail (body.email.getD "") s with ⟨r, s1⟩
  cases r with
  | error err => simp [login, hf, hfind]
  | ok found =>
  cases found with
  | none => simp [login, hf, hfind]
  | some user =>
  cases hcmp : bc.compare (body.password.getD "") user.password with
  | error err => simp [login, hf, hfind, hcmp]
  | ok verdict => cases verdict <;> simp [login, hf, hfind, hcmp]

/-- The store left by the list-accounts handler is the one left by `getAllUsers` or the one
left by `getUserCount` after it. -/
theorem listUsers_store_cases {σ : Type} (db : Database σ) (s : σ) :
    (listUsers db s).store = (db.getAllUsers s).2 ∨
      (listUsers db s).store = (db.getUserCount (db.getAllUsers s).2).2 := by
  rcases hall : db.getAllUsers s with ⟨r, s1⟩
  cases r with
  | error err => left; simp [listUsers, hall]
  | ok users =>
  right
  rcases hcount : db.getUserCount s1 with ⟨r, s2⟩
  cases r <;> simp [listUsers, hall, hcount]

/-- A request handled over the table leaves it as it was or appends one row, whose email and
id no earlier row has. -/
theorem handle_database_store (bc : Bcrypt) (env : Env) (req : Request) (t : Table) :
    (handle database bc env req t).store = t ∨
      ∃ row, (handle database bc env req t).store = t ++ [row] ∧
        (∀ r ∈ t, r.email ≠ row.email) ∧ (∀ r ∈ t, r.id ≠ row.id) := by
  cases req with
  | health => exact Or.inl rfl
  | unmatched => exact Or.inl rfl
  | users =>
    left
    show (listUsers database t).store = t
    rcases listUsers_store_cases database t with h | h <;> exact h.trans rfl
  | login body =>
    left
    show (login database bc env body t).store = t
    rcases login_store_cases database bc env body t with h | h <;> exact h.trans rfl
  | register body =>
    simp only [handle]
    rcases register_store_cases database bc env body t with h | h | ⟨user, h⟩
    · exact Or.inl h
    · left
      rw [h, database_userExists_eq]
    · rw [h, database_userExists_eq]
      exact database_createUser_store user t

/-- A sequence of requests handled over the table only appends rows to it. -/
theorem runStore_database_append (bc : Bcrypt) (reqs : List (Env × Request)) (t : Table) :
    ∃ added, runStore database bc reqs t = t ++ added := by
  induction reqs generalizing t with
  | nil => exact ⟨[], by simp [runStore]⟩
  | cons er reqs ih =>
    simp only [runStore, List.foldl_cons]
    rcases handle_database_store bc er.1 er.2 t with h | ⟨row, h, -, -⟩
    · rw [h]
      exact ih t
    · rw [h]
      obtain ⟨added, hadd⟩ := ih (t ++ [row])
      exact ⟨row :: added, by simpa [runStore] using hadd⟩

/-- A registration answered 201 over the table found no row with the email and appended the
row of the new account, whose password is the hash bcrypt returned. -/
theorem register_database_created (bc : Bcrypt) (env : Env) (username email password : String)
    (t : Table)
    (hreg : (register database bc env
        { username := some username, email := some email, password := some password }
        t).response.status = 201) :
    ∃ hashed, bc.hash password 10 env.salt = .ok hashed ∧
      username ≠ "" ∧ email ≠ "" ∧ password ≠ "" ∧
      (∀ r ∈ t, r.email ≠ email) ∧
      (register database bc env
        { username := some username, email := some email, password := some password }
        t).store =
        t ++ [{ id := toString env.now, username := username, email := email,
                password := hashed, created_at := env.isoNow }] := by
  obtain ⟨u, e, p, hashed, s1, s2, created, hbody, hu, he, hp, hex, hhash, hins⟩ :=
    register_created_inv database bc env _ t hreg
  simp only [RegisterBody.mk.injEq, Option.some.injEq] at hbody
  obtain ⟨rfl, rfl, rfl⟩ := hbody
  rw [register_eq_of_created database bc env username email password hashed t s1 s2
    created hu he hp hex hhash hins]
  rw [database_userExists_eq] at hex
  obtain ⟨hany, rfl⟩ := Prod.mk.inj hex
  have hfresh : ∀ r ∈ t, r.email ≠ email := by
    intro r hr heq
    have := List.any_eq_false.mp (Except.ok.inj hany) r hr
    simp [heq] at this
  refine ⟨hashed, hhash, hu, he, hp, hfresh, ?_⟩
  simp only [database] at hins
  split at hins
  · simp at hins
  · split at hins
    · simp at hins
    · exact (Prod.mk.inj hins).2.symm

/-- Looking up an email over a table in which the first row with that email is `row`, however
many rows follow. -/
theorem database_findUserByEmail_appended (email : String) (t added : Table) (row : Row)
    (hfresh : ∀ r ∈ t, r.email ≠ email) (hrow : row.email = email) :
    database.findUserByEmail email (t ++ [row] ++ added) =
      (.ok (some row), t ++ [row] ++ added) := by
  have hnone : t.find? (fun r => r.email == email) = none := by
    rw [List.find?_eq_none]
    intro r hr
    simpa using hfresh r hr
  simp [database, List.find?_append, hnone, hrow]

/-- Looking up an email that no row of the table has. -/
theorem database_findUserByEmail_absent (email : String) (t : Table)
    (hfresh : ∀ r ∈ t, r.email ≠ email) :
    database.findUserByEmail email t = (.ok none, t) := by
  have hnone : t.find? (fun r => r.email == email) = none := by
    rw [List.find?_eq_none]
    intro r hr
    simpa using hfresh r hr
  simp [database, hnone]

/-- C8, as the code has it: after a Register(username, email, password) answered 201 and any
further requests, and provided bcrypt verifies the password against the hash it produced and
rejects every other string against it, Login(email, password) is answered 200 with a token;
Login(email, p) for every non-empty `p` other than the password is answered 401
`Invalid credentials`, as is a login for an email that no account has; Login(email, "") is
answered 400 `Email and password are required`. -/
theorem register_then_login (bc : Bcrypt) (env : Env) (username email password : String)
    (t : Table) (reqs : List (Env × Request)) (env' : Env)
    (hverify : ∀ h, bc.hash password 10 env.salt = .ok h → bc.compare password h = .ok true)
    (hreject : ∀ h p, bc.hash password 10 env.salt = .ok h → p ≠ password →
      bc.compare p h = .ok false)
    (hreg : (register database bc env
        { username := some username, email := some email, password := some password }
        t).response.status = 201) :
    (login database bc env' { email := some email, password := some password }
        (runStore database bc reqs
          (register database bc env
            { username := some username, email := some email, password := some password }
            t).store)).response =
        { status := 200,
          body := [("success", Json.bool true),
                   ("message", Json.str "Login successful"),
                   ("token", Json.str
                      ("token_" ++ toString env.now ++ "_" ++ toString env'.now)),
                   ("user", Json.obj [("id", toString env.now), ("username", username),
                                      ("email", email)])] } ∧
      (∀ p, p ≠ "" → p ≠ password →
        (login database bc env' { email := some email, password := some p }
          (runStore database bc reqs
            (register database bc env
              { username := some username, email := some email, password := some password }
              t).store)).response =
          { status := 401,
            body := [("success", Json.bool false),
                     ("message", Json.str "Invalid credentials")] }) ∧
      (∀ e p, e ≠ "" → p ≠ "" →
        (∀ r ∈ runStore database bc reqs
            (register database bc env
              { username := some username, email := some email, password := some password }
              t).store, r.email ≠ e) →
        (login database bc env' { email := some e, password := some p }
          (runStore database bc reqs
            (register database bc env
              { username := some username, email := some email, password := some password }
              t).store)).response =
          { status := 401,
            body := [("success", Json.bool false),
                     ("message", Json.str "Invalid credentials")] }) ∧
      (login database bc env' { email := some email, password := some "" }
        (runStore database bc reqs
          (register database bc env
            { username := some username, email := some email, password := some password }
            t).store)).response =
        { status := 400,
          body := [("success", Json.bool false),
                   ("message", Json.str "Email and password are required")] } := by
  obtain ⟨hashed, hhash, hu, he, hp, hfresh, hstore⟩ :=
    register_database_created bc env username email password t hreg
  obtain ⟨added, hadd⟩ := runStore_database_append bc reqs
    (register database bc env
      { username := some username, email := some email, password := some password } t).store
  rw [hadd, hstore]
  have hfind := database_findUserByEmail_appended email t added
    { id := toString env.now, username := username, email := email, password := hashed,
      created_at := env.isoNow } hfresh rfl
  refine ⟨?_, ?_, ?_, ?_⟩
  · rw [login_eq_of_found database bc env' email password _ _ _ true he hp hfind
      (hverify hashed hhash)]
    rfl
  · intro p hp0 hpne
    rw [login_eq_of_found database bc env' email p _ _ _ false he hp0 hfind
      (hreject hashed p hhash hpne)]
    rfl
  · intro e p he0 hp0 habsent
    rw [login_eq_of_not_found database bc env' e p _ _ he0 hp0
      (database_findUserByEmail_absent e _ habsent)]
    rfl
  · simp [login, Falsy, failureBody]

/-- The sample bcrypt verifies `secret1` against the hash it made of it. -/
theorem sampleBcrypt_verifies (h : String)
    (hh : sampleBcrypt.hash "secret1" 10 sampleEnv.salt = .ok h) :
    sampleBcrypt.compare "secret1" h = .ok true := by
  simp only [sampleBcrypt, Except.ok.injEq] at hh
  subst hh
  rfl

/-- The sample bcrypt rejects every other string against the hash of `secret1`. -/
theorem sampleBcrypt_rejects (h p : String)
    (hh : sampleBcrypt.hash "secret1" 10 sampleEnv.salt = .ok h) (hp : p ≠ "secret1") :
    sampleBcrypt.compare p h = .ok false := by
  simp only [sampleBcrypt, Except.ok.injEq] at hh
  subst hh
  have hdrop : ((sampleEnv.salt ++ "$" ++ "secret1").data.dropWhile fun c => c != '$') =
      '$' :: "secret1".data := by decide
  simp only [sampleBcrypt, hdrop, Except.ok.injEq, decide_eq_false_iff_not, List.cons.injEq,
    true_and]
  intro heq
  exact hp (String.ext heq.symm)

/-- Witness of C8: alice registers, other requests follow, and she logs in. -/
theorem register_then_login_witness :
    (login database sampleBcrypt laterEnv
        { email := some "alice@example.com", password := some "secret1" }
        (runStore database sampleBcrypt sampleRequests
          (register database sampleBcrypt sampleEnv aliceBody []).store)).response =
        { status := 200,
          body := [("success", Json.bool true),
                   ("message", Json.str "Login successful"),
                   ("token", Json.str
                      ("token_" ++ toString sampleEnv.now ++ "_" ++ toString laterEnv.now)),
                   ("user", Json.obj [("id", toString sampleEnv.now), ("username", "alice"),
                                      ("email", "alice@example.com")])] } ∧
      (∀ p, p ≠ "" → p ≠ "secret1" →
        (login database sampleBcrypt laterEnv
          { email := some "alice@example.com", password := some p }
          (runStore database sampleBcrypt sampleRequests
            (register database sampleBcrypt sampleEnv aliceBody []).store)).response =
          { status := 401,
            body := [("success", Json.bool false),
                     ("message", Json.str "Invalid credentials")] }) ∧
      (∀ e p, e ≠ "" → p ≠ "" →
        (∀ r ∈ runStore database sampleBcrypt sampleRequests
            (register database sampleBcrypt sampleEnv aliceBody []).store, r.email ≠ e) →
        (login database sampleBcrypt laterEnv { email := some e, password := some p }
          (runStore database sampleBcrypt sampleRequests
            (register database sampleBcrypt sampleEnv aliceBody []).store)).response =
          { status := 401,
            body := [("success", Json.bool false),
                     ("message", Json.str "Invalid credentials")] }) ∧
      (login database sampleBcrypt laterEnv
        { email := some "alice@example.com", password := some "" }
        (runStore database sampleBcrypt sampleRequests
          (register database sampleBcrypt sampleEnv aliceBody []).store)).response =
        { status := 400,
          body := [("success", Json.bool false),
                   ("message", Json.str "Email and password are required")] } :=
  register_then_login sampleBcrypt sampleEnv "alice" "alice@example.com" "secret1" []
    sampleRequests laterEnv sampleBcrypt_verifies sampleBcrypt_rejects (by decide)

/-- Counterexample to C8 as stated: after alice registered with password `secret1`, the
empty string is a password different from hers, and Login(email, "") is answered 400
`Email and password are required`, not 401 `Invalid credentials`. -/
theorem login_empty_password_not_401 :
    (register database sampleBcrypt sampleEnv aliceBody []).response.status = 201 ∧
      "" ≠ "secret1" ∧
      (login database sampleBcrypt laterEnv
        { email := some "alice@example.com", password := some "" }
        (register database sampleBcrypt sampleEnv aliceBody []).store).response =
        { status := 400,
          body := [("success", Json.bool false),
                   ("message", Json.str "Email and password are required")] } ∧
      (login database sampleBcrypt laterEnv
        { email := some "alice@example.com", password := some "" }
        (register database sampleBcrypt sampleEnv aliceBody []).store).response ≠
        { status := 401,
          body := [("success", Json.bool false),
                   ("message", Json.str "Invalid credentials")] } := by
  decide

/-- On the table, `createUser` succeeds when no row has the id or the email of the user. -/
theorem database_createUser_fresh (user : User) (t : Table)
    (hid : ∀ r ∈ t, r.id ≠ user.id) (hmail : ∀ r ∈ t, r.email ≠ user.email) :
    database.createUser user t =
      (.ok user,
       t ++ [{ id := user.id, username := user.username, email := user.email,
               password := user.password, created_at := user.createdAt }]) := by
  have h1 : (t.any fun r => r.id == user.id) = false := by
    rw [List.any_eq_false]
    intro r hr
    simpa using hid r hr
  have h2 : (t.any fun r => r.email == user.email) = false := by
    rw [List.any_eq_false]
    intro r hr
    simpa using hmail r hr
  simp only [database, h1, h2, Bool.false_eq_true, if_false]

/-- Register away from an id collision: for every table and every triple (username of length
≥ 3, syntactically valid email, password of length ≥ 6) whose email no row has and whose
password bcrypt hashes, Register is answered 201 as long as no row has the id
`Date.now().toString()` the handler picks; after it and any further requests, a Register with
the same email (and any non-empty username and password) is answered 400
`User with this email already exists`. The assumption on the id is not met in general, see
`register_fresh_email_id_collision`. -/
theorem register_fresh_then_duplicate (bc : Bcrypt) (env : Env)
    (username email password hashed : String) (t : Table) (reqs : List (Env × Request))
    (hu : 3 ≤ jsLength username) (hv : isValidEmail email = true)
    (hp : 6 ≤ jsLength password)
    (hfresh : ∀ r ∈ t, r.email ≠ email)
    (hid : ∀ r ∈ t, r.id ≠ toString env.now)
    (hhash : bc.hash password 10 env.salt = .ok hashed) :
    (register database bc env
        { username := some username, email := some email, password := some password }
        t).response.status = 201 ∧
      ∀ (env2 : Env) (username2 password2 : String), username2 ≠ "" → password2 ≠ "" →
        (register database bc env2
          { username := some username2, email := some email, password := some password2 }
          (runStore database bc reqs
            (register database bc env
              { username := some username, email := some email, password := some password }
              t).store)).response =
          { status := 400,
            body := [("success", Json.bool false),
                     ("message", Json.str "User with this email already exists")] } := by
  have hu0 : username ≠ "" := by
    rintro rfl
    exact absurd hu (by decide)
  have he0 : email ≠ "" := by
    rintro rfl
    exact absurd hv (by decide)
  have hp0 : password ≠ "" := by
    rintro rfl
    exact absurd hp (by decide)
  have hex : database.userExists email t = (.ok false, t) := by
    rw [database_userExists_eq]
    have : (t.any fun r => r.email == email) = false := by
      rw [List.any_eq_false]
      intro r hr
      simpa using hfresh r hr
    rw [this]
  have hins := database_createUser_fresh
    { id := toString env.now, username := username, email := email, password := hashed,
      createdAt := env.isoNow } t hid hfresh
  have heq := register_eq_of_created database bc env username email password hashed
    t t _ _ hu0 he0 hp0 hex hhash hins
  refine ⟨by rw [heq], ?_⟩
  intro env2 username2 password2 hu2 hp2
  obtain ⟨added, hadd⟩ := runStore_database_append bc reqs
    (register database bc env
      { username := some username, email := some email, password := some password } t).store
  rw [hadd, heq]
  have hex2 : database.userExists email
      (t ++ [{ id := toString env.now, username := username, email := email,
               password := hashed, created_at := env.isoNow }] ++ added) =
      (.ok true, t ++ [{ id := toString env.now, username := username, email := email,
                         password := hashed, created_at := env.isoNow }] ++ added) := by
    rw [database_userExists_eq]
    simp
  rw [register_eq_of_exists database bc env2 username2 email password2 _ _ hu2 he0 hp2
    hex2]
  rfl

/-- Instance of `register_fresh_then_duplicate`: alice registers against a table holding bob,
whose id differs from hers; other requests follow. -/
theorem register_fresh_then_duplicate_witness :
    (register database sampleBcrypt laterEnv aliceBody [bobRow]).response.status = 201 ∧
      ∀ (env2 : Env) (username2 password2 : String), username2 ≠ "" → password2 ≠ "" →
        (register database sampleBcrypt env2
          { username := some username2, email := some "alice@example.com",
            password := some password2 }
          (runStore database sampleBcrypt sampleRequests
            (register database sampleBcrypt laterEnv aliceBody [bobRow]).store)).response =
          { status := 400,
            body := [("success", Json.bool false),
                     ("message", Json.str "User with this email already exists")] } :=
  register_fresh_then_duplicate sampleBcrypt laterEnv "alice" "alice@example.com" "secret1"
    "efgh$secret1" [bobRow] sampleRequests (by decide) (by decide) (by decide) (by decide)
    (by decide) rfl

/-- C9 at the failing input: `alice`, `alice@example.com`, `secret1` is a valid triple and no
row of the table `[bobRow]` has that email, yet Register at the millisecond `1700000000000`,
which is the id of bob, is answered 500 and stores nothing: the id `Date.now().toString()` is
not unique and the insert violates the primary key. -/
theorem register_fresh_email_id_collision :
    3 ≤ jsLength "alice" ∧ isValidEmail "alice@example.com" = true ∧ 6 ≤ jsLength "secret1" ∧
      (∀ r ∈ [bobRow], r.email ≠ "alice@example.com") ∧
      (register database sampleBcrypt sampleEnv
        { username := some "alice", email := some "alice@example.com",
          password := some "secret1" }
        [bobRow]).response =
        { status := 500,
          body := [("success", Json.bool false),
                   ("message", Json.str "Internal server error")] } ∧
      (register database sampleBcrypt sampleEnv
        { username := some "alice", email := some "alice@example.com",
          password := some "secret1" }
        [bobRow]).store = [bobRow] := by
  decide

/-! ## Invariants of the `users` table -/

/-- C10: email uniqueness is an invariant of the table: from a table whose rows have pairwise
distinct emails, every sequence of requests (Register, Login and the others) leads to a table
whose rows have pairwise distinct emails. -/
theorem email_unique_invariant (bc : Bcrypt) (reqs : List (Env × Request)) (t : Table)
    (h : (t.map fun r => r.email).Nodup) :
    ((runStore database bc reqs t).map fun r => r.email).Nodup := by
  induction reqs generalizing t with
  | nil => simpa [runStore] using h
  | cons er reqs ih =>
    simp only [runStore, List.foldl_cons]
    apply ih
    rcases handle_database_store bc er.1 er.2 t with hs | ⟨row, hs, hmail, -⟩
    · rw [hs]
      exact h
    · rw [hs, List.map_append, List.nodup_append]
      refine ⟨h, by simp, ?_⟩
      intro e he1 he2
      obtain ⟨r, hr, rfl⟩ := List.mem_map.mp he1
      simp only [List.map_cons, List.map_nil, List.mem_singleton] at he2
      exact hmail r hr he2

/-- Witness of C10: the sample requests, among them a second registration of the email of
alice, run from the table holding alice and bob. -/
theorem email_unique_invariant_witness :
    ((runStore database sampleBcrypt sampleRequests
        [{ id := "1", username := "alice", email := "alice@example.com",
           password := "abcd$secret1", created_at := "2023-11-14T22:13:20.000Z" }, bobRow]
      ).map fun r => r.email).Nodup :=
  email_unique_invariant sampleBcrypt sampleRequests
    [{ id := "1", username := "alice", email := "alice@example.com",
       password := "abcd$secret1", created_at := "2023-11-14T22:13:20.000Z" }, bobRow]
    (by decide)

/-! ## Public views -/

/-- The `user` property of a register response, when there is one, is an object with exactly
the properties `id`, `username`, `email`. -/
theorem register_user_view {σ : Type} (db : Database σ) (bc : Bcrypt) (env : Env)
    (body : RegisterBody) (s : σ) (j : Json)
    (h : (register db bc env body s).response.body.lookup "user" = some j) :
    ∃ id username email,
      j = Json.obj [("id", id), ("username", username), ("email", email)] := by
  by_cases hf : (Falsy body.username || Falsy body.email || Falsy body.password) = true
  · simp [register, hf, failureBody, List.lookup] at h
  rcases hex : db.userExists (body.email.getD "") s with ⟨r, s1⟩
  cases r with
  | error err => simp [register, hf, hex, internalError, failureBody, List.lookup] at h
  | ok b =>
  cases b with
  | true => simp [register, hf, hex, failureBody, List.lookup] at h
  | false =>
  cases hhash : bc.hash (body.password.getD "") 10 env.salt with
  | error err => simp [register, hf, hex, hhash, internalError, failureBody, List.lookup] at h
  | ok hashed =>
  rcases hins : db.createUser
      { id := toString env.now, username := body.username.getD "",
        email := body.email.getD "", password := hashed, createdAt := env.isoNow } s1
    with ⟨r, s2⟩
  cases r with
  | error err =>
    simp [register, hf, hex, hhash, hins, internalError, failureBody, List.lookup] at h
  | ok created =>
    simp [register, hf, hex, hhash, hins, List.lookup, publicUser] at h
    exact ⟨_, _, _, h.symm⟩

/-- The `user` property of a login response, when there is one, is an object with exactly
the properties `id`, `username`, `email`. -/
theorem login_user_view {σ : Type} (db : Database σ) (bc : Bcrypt) (env : Env)
    (body : LoginBody) (s : σ) (j : Json)
    (h : (login db bc env body s).response.body.lookup "user" = some j) :
    ∃ id username email,
      j = Json.obj [("id", id), ("username", username), ("email", email)] := by
  by_cases hf : (Falsy body.email || Falsy body.password) = true
  · simp [login, hf, failureBody, List.lookup] at h
  rcases hfind : db.findUserByEmail (body.email.getD "") s with ⟨r, s1⟩
  cases r with
  | error err => simp [login, hf, hfind, internalError, failureBody, List.lookup] at h
  | ok found =>
  cases found with
  | none => simp [login, hf, hfind, failureBody, List.lookup] at h
  | some user =>
  cases hcmp : bc.compare (body.password.getD "") user.password with
  | error err => simp [login, hf, hfind, hcmp, internalError, failureBody, List.lookup] at h
  | ok verdict =>
    cases verdict with
    | false => simp [login, hf, hfind, hcmp, failureBody, List.lookup] at h
    | true =>
      simp [login, hf, hfind, hcmp, List.lookup, publicUser] at h
      exact ⟨_, _, _, h.symm⟩

/-- The entries of the `users` property of a list-accounts response have exactly the
properties `id`, `username`, `email`, `created_at`. -/
theorem listUsers_entry_view {σ : Type} (db : Database σ) (s : σ) (items : List JsObject)
    (h : (listUsers db s).response.body.lookup "users" = some (Json.arr items)) :
    ∀ o ∈ items, o.map Prod.fst = ["id", "username", "email", "created_at"] := by
  rcases hall : db.getAllUsers s with ⟨r, s1⟩
  cases r with
  | error err => simp [listUsers, hall, internalError, failureBody, List.lookup] at h
  | ok users =>
  rcases hcount : db.getUserCount s1 with ⟨r, s2⟩
  cases r with
  | error err => simp [listUsers, hall, hcount, internalError, failureBody, List.lookup] at h
  | ok n =>
    simp [listUsers, hall, hcount, List.lookup] at h
    subst h
    intro o ho
    obtain ⟨r, -, rfl⟩ := List.mem_map.mp ho
    rfl

/-- C11: no public view has a password property.  The `user` object of a register response
and of a login response, whenever the response has one, has exactly the properties `id`,
`username`, `email`; every entry of the `users` array of a list-accounts response has exactly
the properties `id`, `username`, `email`, `created_at`; and over the `users` table the listing
is the rows with their `password` column left out, whatever the rows hold. -/
theorem public_views_without_password {σ : Type} (db : Database σ) (bc : Bcrypt) (env : Env)
    (rbody : RegisterBody) (lbody : LoginBody) (s : σ) (t : Table) :
    (∀ j, (register db bc env rbody s).response.body.lookup "user" = some j →
        ∃ id username email,
          j = Json.obj [("id", id), ("username", username), ("email", email)]) ∧
      (∀ j, (login db bc env lbody s).response.body.lookup "user" = some j →
        ∃ id username email,
          j = Json.obj [("id", id), ("username", username), ("email", email)]) ∧
      (∀ items, (listUsers db s).response.body.lookup "users" = some (Json.arr items) →
        ∀ o ∈ items, o.map Prod.fst = ["id", "username", "email", "created_at"] ∧
          "password" ∉ o.map Prod.fst) ∧
      (database.getAllUsers t).1 = .ok (t.map fun r =>
        { id := r.id, username := r.username, email := r.email,
          created_at := r.created_at }) ∧
      (listUsers database t).response.body.lookup "users" =
        some (Json.arr (t.map fun r =>
          [("id", r.id), ("username", r.username), ("email", r.email),
           ("created_at", r.created_at)])) := by
  refine ⟨register_user_view db bc env rbody s, login_user_view db bc env lbody s, ?_, rfl, ?_⟩
  · intro items h o ho
    have hk := listUsers_entry_view db s items h o ho
    rw [hk]
    exact ⟨rfl, by decide⟩
  · simp [listUsers, database, List.lookup, List.map_map, Function.comp_def]

/-- Witness of C11: the responses to the registration of alice, to her login and to a listing
of the table that holds her row. -/
theorem public_views_without_password_witness :
    (∃ id username email,
        Json.obj [("id", "1700000000000"), ("username", "alice"),
                  ("email", "alice@example.com")] =
          Json.obj [("id", id), ("username", username), ("email", email)]) ∧
      (∀ o ∈ [[("id", "1700000000000"), ("username", "alice"), ("email", "alice@example.com"),
               ("created_at", "2023-11-14T22:13:20.000Z")]],
        o.map Prod.fst = ["id", "username", "email", "created_at"] ∧
          "password" ∉ o.map Prod.fst) :=
  ⟨(public_views_without_password database sampleBcrypt sampleEnv aliceBody
      { email := some "alice@example.com", password := some "secret1" } []
      (register database sampleBcrypt sampleEnv aliceBody []).store).1 _ rfl,
   (public_views_without_password database sampleBcrypt sampleEnv aliceBody
      { email := some "alice@example.com", password := some "secret1" }
      (register database sampleBcrypt sampleEnv aliceBody []).store
      (register database sampleBcrypt sampleEnv aliceBody []).store).2.2.1 _ rfl⟩

/-! ## Validation on the server -/

/-- C12 at the failing input: the username `ab` has length 2, and the register handler
answers the request 201 and stores the account; it has no check of the username length. -/
theorem register_short_username_accepted :
    jsLength "ab" = 2 ∧
      (register database sampleBcrypt sampleEnv
        { username := some "ab", email := some "test@example.com",
          password := some "password123" } []).response =
        { status := 201,
          body := [("success", Json.bool true),
                   ("message", Json.str "User registered successfully"),
                   ("user", Json.obj [("id", "1700000000000"), ("username", "ab"),
                                      ("email", "test@example.com")])] } ∧
      (register database sampleBcrypt sampleEnv
        { username := some "ab", email := some "test@example.com",
          password := some "password123" } []).store =
        [{ id := "1700000000000", username := "ab", email := "test@example.com",
           password := "abcd$password123", created_at := "2023-11-14T22:13:20.000Z" }] := by
  decide

/-- C13 at the failing input: the password `12345` has length 5, and the register handler
answers the request 201 and stores the account; it has no check of the password length. -/
theorem register_short_password_accepted :
    jsLength "12345" = 5 ∧
      (register database sampleBcrypt sampleEnv
        { username := some "testuser", email := some "test@example.com",
          password := some "12345" } []).response =
        { status := 201,
          body := [("success", Json.bool true),
                   ("message", Json.str "User registered successfully"),
                   ("user", Json.obj [("id", "1700000000000"), ("username", "testuser"),
                                      ("email", "test@example.com")])] } ∧
      (register database sampleBcrypt sampleEnv
        { username := some "testuser", email := some "test@example.com",
          password := some "12345" } []).store =
        [{ id := "1700000000000", username := "testuser", email := "test@example.com",
           password := "abcd$12345", created_at := "2023-11-14T22:13:20.000Z" }] := by
  decide

/-- C14 at the failing input: a request with the username `ab` and the email
`invalid-email`, which the email pattern rejects, is answered 201, and the table then holds a
row with that username and that email. -/
theorem register_invalid_account_stored :
    jsLength "ab" < 3 ∧ isValidEmail "invalid-email" = false ∧
      (register database sampleBcrypt sampleEnv
        { username := some "ab", email := some "invalid-email",
          password := some "password123" } []).response.status = 201 ∧
      (register database sampleBcrypt sampleEnv
        { username := some "ab", email := some "invalid-email",
          password := some "password123" } []).store =
        [{ id := "1700000000000", username := "ab", email := "invalid-email",
           password := "abcd$password123", created_at := "2023-11-14T22:13:20.000Z" }] := by
  decide

/-! ## Tokens -/

/-- C16 at the failing input: two logins of alice that read the same `Date.now()` are both
answered 200 and carry the same token. -/
theorem login_same_millisecond_same_token :
    (login database sampleBcrypt laterEnv
        { email := some "alice@example.com", password := some "secret1" }
        (register database sampleBcrypt sampleEnv aliceBody []).store).response.status = 200 ∧
      (login database sampleBcrypt { laterEnv with salt := "ijkl" }
        { email := some "alice@example.com", password := some "secret1" }
        (register database sampleBcrypt sampleEnv aliceBody []).store).response.status = 200 ∧
      issuedToken (login database sampleBcrypt laterEnv
        { email := some "alice@example.com", password := some "secret1" }
        (register database sampleBcrypt sampleEnv aliceBody []).store).response =
        some "token_1700000000000_1700000000500" ∧
      issuedToken (login database sampleBcrypt { laterEnv with salt := "ijkl" }
        { email := some "alice@example.com", password := some "secret1" }
        (register database sampleBcrypt sampleEnv aliceBody []).store).response =
        some "token_1700000000000_1700000000500" := by
  decide

/-! ## Account ids -/

/-- The login handler never answers 201. -/
theorem login_status_ne_201 {σ : Type} (db : Database σ) (bc : Bcrypt) (env : Env)
    (body : LoginBody) (s : σ) : (login db bc env body s).response.status ≠ 201 := by
  by_cases hf : (Falsy body.email || Falsy body.password) = true
  · simp [login, hf]
  rcases hfind : db.findUserByEmail (body.email.getD "") s with ⟨r, s1⟩
  cases r with
  | error err => simp [login, hf, hfind, internalError]
  | ok found =>
  cases found with
  | none => simp [login, hf, hfind]
  | some user =>
  cases hcmp : bc.compare (body.password.getD "") user.password with
  | error err => simp [login, hf, hfind, hcmp, internalError]
  | ok verdict => cases verdict <;> simp [login, hf, hfind, hcmp]

/-- The list-accounts handler never answers 201. -/
theorem listUsers_status_ne_201 {σ : Type} (db : Database σ) (s : σ) :
    (listUsers db s).response.status ≠ 201 := by
  rcases hall : db.getAllUsers s with ⟨r, s1⟩
  cases r with
  | error err => simp [listUsers, hall, internalError]
  | ok users =>
  rcases hcount : db.getUserCount s1 with ⟨r, s2⟩
  cases r <;> simp [listUsers, hall, hcount, internalError]

/-- A response over the table that announces a registered id comes with a new row of that id,
which no earlier row has. -/
theorem handle_database_registeredId (bc : Bcrypt) (env : Env) (req : Request) (t : Table)
    (i : String) (h : registeredId (handle database bc env req t).response = some i) :
    ∃ row, (handle database bc env req t).store = t ++ [row] ∧ row.id = i ∧
      ∀ r ∈ t, r.id ≠ i := by
  have hstatus : (handle database bc env req t).response.status = 201 := by
    by_contra hne
    simp [registeredId, hne] at h
  cases req with
  | health => simp [handle, health] at hstatus
  | unmatched => simp [handle, notFound] at hstatus
  | users => exact absurd hstatus (listUsers_status_ne_201 database t)
  | login body => exact absurd hstatus (login_status_ne_201 database bc env body t)
  | register body =>
    simp only [handle] at h hstatus ⊢
    obtain ⟨username, email, password, hashed, s1, s2, created, rfl, hu, he, hp, hex, hhash,
      hins⟩ := register_created_inv database bc env body t hstatus
    rw [register_eq_of_created database bc env username email password hashed t s1 s2
      created hu he hp hex hhash hins] at h ⊢
    have hi : toString env.now = i := by
      simpa [registeredId, List.lookup] using h
    rw [database_userExists_eq] at hex
    obtain ⟨-, rfl⟩ := Prod.mk.inj hex
    simp only [database] at hins
    split at hins
    · simp at hins
    · rename_i hid
      split at hins
      · simp at hins
      · refine ⟨_, (Prod.mk.inj hins).2.symm, hi, ?_⟩
        intro r hr heq
        exact hid (List.any_eq_true.mpr ⟨r, hr, by simpa [hi] using heq⟩)

/-- The ids announced by the 201 responses of a run over the table are pairwise distinct, and
distinct from the ids of the rows the run started from. -/
theorem runResponses_registered_ids (bc : Bcrypt) (reqs : List (Env × Request)) (t : Table) :
    ((runResponses database bc reqs t).filterMap registeredId).Nodup ∧
      ∀ i ∈ (runResponses database bc reqs t).filterMap registeredId, ∀ r ∈ t, r.id ≠ i := by
  induction reqs generalizing t with
  | nil => simp [runResponses]
  | cons er reqs ih =>
    simp only [runResponses, List.filterMap_cons]
    cases hreg : registeredId (handle database bc er.1 er.2 t).response with
    | none =>
      simp only
      obtain ⟨hnd, hfresh⟩ := ih (handle database bc er.1 er.2 t).store
      refine ⟨hnd, ?_⟩
      intro i hi r hr
      have hmem : r ∈ (handle database bc er.1 er.2 t).store := by
        rcases handle_database_store bc er.1 er.2 t with hs | ⟨row, hs, -, -⟩
        · rw [hs]
          exact hr
        · rw [hs]
          exact List.mem_append_left _ hr
      exact hfresh i hi r hmem
    | some i =>
      simp only
      obtain ⟨row, hs, hrow, hnew⟩ := handle_database_registeredId bc er.1 er.2 t i hreg
      obtain ⟨hnd, hfresh⟩ := ih (handle database bc er.1 er.2 t).store
      have hsub : ∀ r ∈ t ++ [row], r ∈ (handle database bc er.1 er.2 t).store := by
        intro r hr
        rw [hs]
        exact hr
      refine ⟨List.nodup_cons.mpr ⟨?_, hnd⟩, ?_⟩
      · intro hmem
        exact hfresh i hmem row (hsub row (by simp)) hrow
      · intro j hj r hr
        rcases List.mem_cons.mp hj with rfl | hj
        · exact hnew r hr
        · exact hfresh j hj r (hsub r (List.mem_append_left _ hr))

/-- The ids of the rows stay pairwise distinct along a run over the table. -/
theorem runStore_ids_nodup (bc : Bcrypt) (reqs : List (Env × Request)) (t : Table)
    (h : (t.map fun r => r.id).Nodup) :
    ((runStore database bc reqs t).map fun r => r.id).Nodup := by
  induction reqs generalizing t with
  | nil => simpa [runStore] using h
  | cons er reqs ih =>
    simp only [runStore, List.foldl_cons]
    apply ih
    rcases handle_database_store bc er.1 er.2 t with hs | ⟨row, hs, -, hid⟩
    · rw [hs]
      exact h
    · rw [hs, List.map_append, List.nodup_append]
      refine ⟨h, by simp, ?_⟩
      intro e he1 he2
      obtain ⟨r, hr, rfl⟩ := List.mem_map.mp he1
      simp only [List.map_cons, List.map_nil, List.mem_singleton] at he2
      exact hid r hr he2

/-- C17: account ids are unique.  Along every sequence of requests handled over a table
whose rows have pairwise distinct ids, the ids announced by the 201 responses are pairwise
distinct, none of them is the id of a row the run started from, and the rows of the final
table have pairwise distinct ids. -/
theorem account_ids_unique (bc : Bcrypt) (reqs : List (Env × Request)) (t : Table)
    (h : (t.map fun r => r.id).Nodup) :
    ((runResponses database bc reqs t).filterMap registeredId).Nodup ∧
      (∀ i ∈ (runResponses database bc reqs t).filterMap registeredId,
        ∀ r ∈ t, r.id ≠ i) ∧
      ((runStore database bc reqs t).map fun r => r.id).Nodup :=
  ⟨(runResponses_registered_ids bc reqs t).1, (runResponses_registered_ids bc reqs t).2,
    runStore_ids_nodup bc reqs t h⟩

/-- Witness of C17: the sample requests run from the table that holds bob. -/
theorem account_ids_unique_witness :
    ((runResponses database sampleBcrypt sampleRequests [bobRow]).filterMap
        registeredId).Nodup ∧
      (∀ i ∈ (runResponses database sampleBcrypt sampleRequests [bobRow]).filterMap
          registeredId,
        ∀ r ∈ [bobRow], r.id ≠ i) ∧
      ((runStore database sampleBcrypt sampleRequests [bobRow]).map fun r => r.id).Nodup :=
  account_ids_unique sampleBcrypt sampleRequests [bobRow] (by decide)

/-! ## Failures of the store and of bcrypt -/

/-- C18: whenever a store operation or a bcrypt call made by the register, login or
list-accounts handler fails, the response is 500 with the body
`{ success: false, message }` with the message `Internal server error`, whatever the error
is. -/
theorem failure_internal_error {σ : Type} (db : Database σ) (bc : Bcrypt) (env : Env)
    (username email password : String) (s : σ)
    (hu : username ≠ "") (he : email ≠ "") (hp : password ≠ "") :
    (∀ err s1, db.userExists email s = (.error err, s1) →
        (register db bc env
          { username := some username, email := some email, password := some password }
          s).response =
          { status := 500,
            body := [("success", Json.bool false),
                     ("message", Json.str "Internal server error")] }) ∧
      (∀ msg s1, db.userExists email s = (.ok false, s1) →
        bc.hash password 10 env.salt = .error msg →
        (register db bc env
          { username := some username, email := some email, password := some password }
          s).response =
          { status := 500,
            body := [("success", Json.bool false),
                     ("message", Json.str "Internal server error")] }) ∧
      (∀ err hashed s1 s2, db.userExists email s = (.ok false, s1) →
        bc.hash password 10 env.salt = .ok hashed →
        db.createUser
          { id := toString env.now, username := username, email := email,
            password := hashed, createdAt := env.isoNow } s1 = (.error err, s2) →
        (register db bc env
          { username := some username, email := some email, password := some password }
          s).response =
          { status := 500,
            body := [("success", Json.bool false),
                     ("message", Json.str "Internal server error")] }) ∧
      (∀ err s1, db.findUserByEmail email s = (.error err, s1) →
        (login db bc env { email := some email, password := some password } s).response =
          { status := 500,
            body := [("success", Json.bool false),
                     ("message", Json.str "Internal server error")] }) ∧
      (∀ msg user s1, db.findUserByEmail email s = (.ok (some user), s1) →
        bc.compare password user.password = .error msg →
        (login db bc env { email := some email, password := some password } s).response =
          { status := 500,
            body := [("success", Json.bool false),
                     ("message", Json.str "Internal server error")] }) ∧
      (∀ err s1, db.getAllUsers s = (.error err, s1) →
        (listUsers db s).response =
          { status := 500,
            body := [("success", Json.bool false),
                     ("message", Json.str "Internal server error")] }) ∧
      (∀ err users s1 s2, db.getAllUsers s = (.ok users, s1) →
        db.getUserCount s1 = (.error err, s2) →
        (listUsers db s).response =
          { status := 500,
            body := [("success", Json.bool false),
                     ("message", Json.str "Internal server error")] }) := by
  refine ⟨?_, ?_, ?_, ?_, ?_, ?_, ?_⟩
  · intro err s1 hex
    simp [register, Falsy, hu, he, hp, hex, internalError, failureBody]
  · intro msg s1 hex hhash
    simp [register, Falsy, hu, he, hp, hex, hhash, internalError, failureBody]
  · intro err hashed s1 s2 hex hhash hins
    simp [register, Falsy, hu, he, hp, hex, hhash, hins, internalError, failureBody]
  · intro err s1 hfind
    simp [login, Falsy, he, hp, hfind, internalError, failureBody]
  · intro msg user s1 hfind hcmp
    simp [login, Falsy, he, hp, hfind, hcmp, internalError, failureBody]
  · intro err s1 hall
    simp [listUsers, hall, internalError, failureBody]
  · intro err users s1 s2 hall hcount
    simp [listUsers, hall, hcount, internalError, failureBody]

/-- Witness of C18: a registration and a listing against a store that rejects every
operation with a disk error. -/
theorem failure_internal_error_witness :
    (register (failingDatabase (DbError.failure "SQLITE_IOERR: disk I/O error")) sampleBcrypt
        sampleEnv aliceBody []).response =
        { status := 500,
          body := [("success", Json.bool false),
                   ("message", Json.str "Internal server error")] } ∧
      (listUsers (failingDatabase (DbError.failure "SQLITE_IOERR: disk I/O error"))
        []).response =
        { status := 500,
          body := [("success", Json.bool false),
                   ("message", Json.str "Internal server error")] } :=
  ⟨(failure_internal_error (failingDatabase (DbError.failure "SQLITE_IOERR: disk I/O error"))
      sampleBcrypt sampleEnv "alice" "alice@example.com" "secret1" []
      (by decide) (by decide) (by decide)).1 _ _ rfl,
   (failure_internal_error (failingDatabase (DbError.failure "SQLITE_IOERR: disk I/O error"))
      sampleBcrypt sampleEnv "alice" "alice@example.com" "secret1" []
      (by decide) (by decide) (by decide)).2.2.2.2.2.1 _ _ rfl⟩

/-! ## The shape of response bodies -/

/-- Every body of the register handler carries `success` and `message`. -/
theorem register_body_shape {σ : Type} (db : Database σ) (bc : Bcrypt) (env : Env)
    (body : RegisterBody) (s : σ) :
    HasSuccessAndMessage (register db bc env body s).response.body := by
  by_cases hf : (Falsy body.username || Falsy body.email || Falsy body.password) = true
  · simp [register, hf, failureBody, HasSuccessAndMessage, List.lookup]
  rcases hex : db.userExists (body.email.getD "") s with ⟨r, s1⟩
  cases r with
  | error err =>
    simp [register, hf, hex, internalError, failureBody, HasSuccessAndMessage, List.lookup]
  | ok b =>
  cases b with
  | true => simp [register, hf, hex, failureBody, HasSuccessAndMessage, List.lookup]
  | false =>
  cases hhash : bc.hash (body.password.getD "") 10 env.salt with
  | error err =>
    simp [register, hf, hex, hhash, internalError, failureBody, HasSuccessAndMessage,
      List.lookup]
  | ok hashed =>
  rcases hins : db.createUser
      { id := toString env.now, username := body.username.getD "",
        email := body.email.getD "", password := hashed, createdAt := env.isoNow } s1
    with ⟨r, s2⟩
  cases r <;>
    simp [register, hf, hex, hhash, hins, internalError, failureBody, HasSuccessAndMessage,
      List.lookup]

/-- Every body of the login handler carries `success` and `message`. -/
theorem login_body_shape {σ : Type} (db : Database σ) (bc : Bcrypt) (env : Env)
    (body : LoginBody) (s : σ) :
    HasSuccessAndMessage (login db bc env body s).response.body := by
  by_cases hf : (Falsy body.email || Falsy body.password) = true
  · simp [login, hf, failureBody, HasSuccessAndMessage, List.lookup]
  rcases hfind : db.findUserByEmail (body.email.getD "") s with ⟨r, s1⟩
  cases r with
  | error err =>
    simp [login, hf, hfind, internalError, failureBody, HasSuccessAndMessage, List.lookup]
  | ok found =>
  cases found with
  | none => simp [login, hf, hfind, failureBody, HasSuccessAndMessage, List.lookup]
  | some user =>
  cases hcmp : bc.compare (body.password.getD "") user.password with
  | error err =>
    simp [login, hf, hfind, hcmp, internalError, failureBody, HasSuccessAndMessage,
      List.lookup]
  | ok verdict =>
    cases verdict <;>
      simp [login, hf, hfind, hcmp, failureBody, HasSuccessAndMessage, List.lookup]

/-- The list-accounts handler answers 200 with `success`, `count`, `users`, or the internal
error. -/
theorem listUsers_response_cases {σ : Type} (db : Database σ) (s : σ) :
    (listUsers db s).response = internalError ∨
      ((listUsers db s).response.status = 200 ∧
        (listUsers db s).response.body.map Prod.fst = ["success", "count", "users"]) := by
  rcases hall : db.getAllUsers s with ⟨r, s1⟩
  cases r with
  | error err => simp [listUsers, hall]
  | ok users =>
  rcases hcount : db.getUserCount s1 with ⟨r, s2⟩
  cases r <;> simp [listUsers, hall, hcount]

/-- C19, as the code has it: the body of every response to a register request, a login
request or an unmatched route, and of every list-accounts response other than the successful
one, carries a boolean `success` and a string `message`; the health body has the properties
`status` and `message` and no `success`; the successful list-accounts body has the properties
`success`, `count`, `users` and no `message`. -/
theorem response_body_shape {σ : Type} (db : Database σ) (bc : Bcrypt) (env : Env)
    (req : Request) (s : σ) :
    (req ≠ Request.health →
        (req = Request.users → (handle db bc env req s).response.status ≠ 200) →
        HasSuccessAndMessage (handle db bc env req s).response.body) ∧
      (req = Request.health →
        (handle db bc env req s).response.body.map Prod.fst = ["status", "message"]) ∧
      (req = Request.users → (handle db bc env req s).response.status = 200 →
        (handle db bc env req s).response.body.map Prod.fst = ["success", "count", "users"]) := by
  refine ⟨?_, ?_, ?_⟩
  · intro hne hlist
    cases req with
    | health => exact absurd rfl hne
    | unmatched => simp [handle, notFound, failureBody, HasSuccessAndMessage, List.lookup]
    | register body => exact register_body_shape db bc env body s
    | login body => exact login_body_shape db bc env body s
    | users =>
      rcases listUsers_response_cases db s with h | ⟨h, -⟩
      · simp [handle, h, internalError, failureBody, HasSuccessAndMessage, List.lookup]
      · exact absurd h (hlist rfl)
  · rintro rfl
    rfl
  · rintro rfl hok
    rcases listUsers_response_cases db s with h | ⟨-, h⟩
    · simp [handle, h, internalError] at hok
    · exact h

/-- Witness of C19 as amended: the response to the registration of alice, the health
response and the listing of the empty table. -/
theorem response_body_shape_witness :
    HasSuccessAndMessage
        (handle database sampleBcrypt sampleEnv (Request.register aliceBody) []).response.body ∧
      (handle database sampleBcrypt sampleEnv Request.health
        ([] : Table)).response.body.map Prod.fst = ["status", "message"] ∧
      (handle database sampleBcrypt sampleEnv Request.users
        ([] : Table)).response.body.map Prod.fst = ["success", "count", "users"] :=
  ⟨(response_body_shape database sampleBcrypt sampleEnv (Request.register aliceBody) []).1
      (by decide) (fun h => by cases h),
   (response_body_shape database sampleBcrypt sampleEnv Request.health []).2.1 rfl,
   (response_body_shape database sampleBcrypt sampleEnv Request.users []).2.2 rfl
      (by decide)⟩

/-- Counterexample to C19 as stated: the health body has no `success` property, and the body
of a successful listing has no `message` property. -/
theorem health_body_without_success :
    health.body = [("status", Json.str "OK"), ("message", Json.str "Server is running")] ∧
      health.body.lookup "success" = none ∧
      ¬ HasSuccessAndMessage
          (handle database sampleBcrypt sampleEnv Request.health ([] : Table)).response.body ∧
      (listUsers database [bobRow]).response.status = 200 ∧
      (listUsers database [bobRow]).response.body.lookup "message" = none ∧
      ¬ HasSuccessAndMessage (listUsers database [bobRow]).response.body := by
  refine ⟨rfl, rfl, ?_, rfl, rfl, ?_⟩
  · rintro ⟨⟨b, hb⟩, -⟩
    simp [handle, health, List.lookup] at hb
  · rintro ⟨-, ⟨m, hm⟩⟩
    simp [listUsers, database, List.lookup] at hm

/-! ## Emptiness checks -/

/-- Trimming a string that consists only of white space leaves the empty string. -/
theorem jsTrim_of_whitespaceOnly (s : String) (h : whitespaceOnly s = true) :
    jsTrim s = "" := by
  have hdrop : s.data.dropWhile isJsWhitespace = [] := by
    rw [List.dropWhile_eq_nil_iff]
    simpa [whitespaceOnly, List.all_eq_true] using h
  simp [jsTrim, hdrop]

/-- The value returned by `validateLoginForm`. -/
theorem validateLoginForm_fst (email password : String) (dom : Dom) :
    (validateLoginForm email password dom).1 =
      (!(jsTrim email == "") && isValidEmail email && !(jsTrim password == "")) := by
  simp only [validateLoginForm]
  split_ifs <;> simp_all

/-- The value returned by `validateRegisterForm`. -/
theorem validateRegisterForm_fst (username email password confirmPassword : String)
    (dom : Dom) :
    (validateRegisterForm username email password confirmPassword dom).1 =
      (!(jsTrim username == "") && !decide (jsLength username < 3) &&
        (!(jsTrim email == "") && isValidEmail email) &&
        (!(jsTrim password == "") && !decide (jsLength password < 6)) &&
        (!(jsTrim confirmPassword == "") && !(password != confirmPassword))) := by
  unfold validateRegisterForm
  by_cases h1 : (jsTrim username == "") = true <;>
  by_cases h2 : jsLength username < 3 <;>
  by_cases h3 : (jsTrim email == "") = true <;>
  by_cases h4 : isValidEmail email = true <;>
  by_cases h5 : (jsTrim password == "") = true <;>
  by_cases h6 : jsLength password < 6 <;>
  by_cases h7 : (jsTrim confirmPassword == "") = true <;>
  by_cases h8 : (password != confirmPassword) = true <;>
  simp only [h1, h2, h3, h4, h5, h6, h7, h8, if_true, if_false, Bool.not_true, Bool.not_false,
    Bool.true_and, Bool.false_and, Bool.and_true, Bool.and_false, Bool.false_eq_true,
    decide_True, decide_False, Bool.not_eq_true]

/-- The register handler answers with the missing-fields error exactly when a field is falsy
(`Falsy`: absent or the empty string, for the fields of the model, which are strings). -/
theorem register_missing_iff {σ : Type} (db : Database σ) (bc : Bcrypt) (env : Env)
    (body : RegisterBody) (s : σ) :
    (register db bc env body s).response =
        { status := 400,
          body := [("success", Json.bool false),
                   ("message", Json.str "Username, email, and password are required")] } ↔
      (Falsy body.username || Falsy body.email || Falsy body.password) = true := by
  by_cases hf : (Falsy body.username || Falsy body.email || Falsy body.password) = true
  · simp [register, hf, failureBody]
  simp only [hf, iff_false]
  rcases hex : db.userExists (body.email.getD "") s with ⟨r, s1⟩
  cases r with
  | error err => simp [register, hf, hex, internalError, failureBody]
  | ok b =>
  cases b with
  | true => simp [register, hf, hex, failureBody]
  | false =>
  cases hhash : bc.hash (body.password.getD "") 10 env.salt with
  | error err => simp [register, hf, hex, hhash, internalError, failureBody]
  | ok hashed =>
  rcases hins : db.createUser
      { id := toString env.now, username := body.username.getD "",
        email := body.email.getD "", password := hashed, createdAt := env.isoNow } s1
    with ⟨r, s2⟩
  cases r <;> simp [register, hf, hex, hhash, hins, internalError, failureBody]

/-- The login handler answers with the missing-fields error exactly when a field is falsy
(`Falsy`: absent or the empty string, for the fields of the model, which are strings). -/
theorem login_missing_iff {σ : Type} (db : Database σ) (bc : Bcrypt) (env : Env)
    (body : LoginBody) (s : σ) :
    (login db bc env body s).response =
        { status := 400,
          body := [("success", Json.bool false),
                   ("message", Json.str "Email and password are required")] } ↔
      (Falsy body.email || Falsy body.password) = true := by
  by_cases hf : (Falsy body.email || Falsy body.password) = true
  · simp [login, hf, failureBody]
  simp only [hf, iff_false]
  rcases hfind : db.findUserByEmail (body.email.getD "") s with ⟨r, s1⟩
  cases r with
  | error err => simp [login, hf, hfind, internalError, failureBody]
  | ok found =>
  cases found with
  | none => simp [login, hf, hfind, failureBody]
  | some user =>
  cases hcmp : bc.compare (body.password.getD "") user.password with
  | error err => simp [login, hf, hfind, hcmp, internalError, failureBody]
  | ok verdict => cases verdict <;> simp [login, hf, hfind, hcmp, failureBody]

/-- C15, as the code has it: the emptiness checks on the trimmed value are those of the
client-side validators, `validateRegisterForm` rejecting a username, email or password that
consists only of white space and `validateLoginForm` an email or password that does; the
server handlers test the value as submitted, without trimming: a request with a field absent
or the empty string is answered with the missing-fields error, and a request whose fields are
all non-empty strings, those of white space only included, is not. -/
theorem emptiness_checks {σ : Type} (db : Database σ) (bc : Bcrypt) (env : Env) (s : σ)
    (rbody : RegisterBody) (lbody : LoginBody)
    (username email password confirmPassword : String) (dom : Dom) :
    ((whitespaceOnly username = true ∨ whitespaceOnly email = true ∨
          whitespaceOnly password = true) →
        (validateRegisterForm username email password confirmPassword dom).1 = false) ∧
      ((whitespaceOnly email = true ∨ whitespaceOnly password = true) →
        (validateLoginForm email password dom).1 = false) ∧
      (((rbody.username = none ∨ rbody.username = some "") ∨
          (rbody.email = none ∨ rbody.email = some "") ∨
          (rbody.password = none ∨ rbody.password = some "")) →
        (register db bc env rbody s).response =
          { status := 400,
            body := [("success", Json.bool false),
                     ("message", Json.str "Username, email, and password are required")] }) ∧
      (username ≠ "" → email ≠ "" → password ≠ "" →
        (register db bc env
          { username := some username, email := some email, password := some password }
          s).response ≠
          { status := 400,
            body := [("success", Json.bool false),
                     ("message", Json.str "Username, email, and password are required")] }) ∧
      (((lbody.email = none ∨ lbody.email = some "") ∨
          (lbody.password = none ∨ lbody.password = some "")) →
        (login db bc env lbody s).response =
          { status := 400,
            body := [("success", Json.bool false),
                     ("message", Json.str "Email and password are required")] }) ∧
      (email ≠ "" → password ≠ "" →
        (login db bc env { email := some email, password := some password } s).response ≠
          { status := 400,
            body := [("success", Json.bool false),
                     ("message", Json.str "Email and password are required")] }) := by
  have hfalsy : ∀ x : Option String, Falsy x = true ↔ (x = none ∨ x = some "") := by
    intro x
    cases x <;> simp [Falsy]
  refine ⟨?_, ?_, ?_, ?_, ?_, ?_⟩
  · intro h
    rw [validateRegisterForm_fst]
    rcases h with h | h | h <;> simp [jsTrim_of_whitespaceOnly _ h]
  · intro h
    rw [validateLoginForm_fst]
    rcases h with h | h <;> simp [jsTrim_of_whitespaceOnly _ h]
  · intro h
    rw [register_missing_iff]
    simpa only [Bool.or_eq_true, hfalsy, or_assoc] using h
  · intro hu he hp h
    rw [register_missing_iff] at h
    simp [Falsy, hu, he, hp] at h
  · intro h
    rw [login_missing_iff]
    simpa only [Bool.or_eq_true, hfalsy, or_assoc] using h
  · intro he hp h
    rw [login_missing_iff] at h
    simp [Falsy, he, hp] at h

/-- Witness of C15 as amended: the forms reject blank values, the server rejects a register
request without a password and a login request with an empty password, and accepts blank
values as present. -/
theorem emptiness_checks_witness :
    (validateRegisterForm "   " "   " "   " "   " emptyDom).1 = false ∧
      (validateLoginForm "   " "   " emptyDom).1 = false ∧
      (register database sampleBcrypt sampleEnv
          { username := some "alice", email := some "alice@example.com", password := none }
          []).response =
          { status := 400,
            body := [("success", Json.bool false),
                     ("message", Json.str "Username, email, and password are required")] } ∧
      (register database sampleBcrypt sampleEnv
          { username := some "   ", email := some "   ", password := some "   " }
          []).response ≠
          { status := 400,
            body := [("success", Json.bool false),
                     ("message", Json.str "Username, email, and password are required")] } ∧
      (login database sampleBcrypt sampleEnv
          { email := some "alice@example.com", password := some "" } []).response =
          { status := 400,
            body := [("success", Json.bool false),
                     ("message", Json.str "Email and password are required")] } ∧
      (login database sampleBcrypt sampleEnv
          { email := some "   ", password := some "   " } []).response ≠
          { status := 400,
            body := [("success", Json.bool false),
                     ("message", Json.str "Email and password are required")] } :=
  have h := emptiness_checks database sampleBcrypt sampleEnv []
    { username := some "alice", email := some "alice@example.com", password := none }
    { email := some "alice@example.com", password := some "" } "   " "   " "   " "   " emptyDom
  ⟨h.1 (Or.inl (by decide)), h.2.1 (Or.inl (by decide)),
   h.2.2.1 (Or.inr (Or.inr (Or.inl rfl))),
   h.2.2.2.1 (by decide) (by decide) (by decide),
   h.2.2.2.2.1 (Or.inr (Or.inr rfl)),
   h.2.2.2.2.2 (by decide) (by decide)⟩

/-- Counterexample to C15 as stated: a register request whose three fields are three blanks
each is answered 201, and a login request whose two fields are three blanks each is answered
401 `Invalid credentials`; neither gets the missing-fields error. -/
theorem whitespace_fields_not_missing :
    whitespaceOnly "   " = true ∧
      (register database sampleBcrypt sampleEnv
        { username := some "   ", email := some "   ", password := some "   " }
        []).response =
        { status := 201,
          body := [("success", Json.bool true),
                   ("message", Json.str "User registered successfully"),
                   ("user", Json.obj [("id", "1700000000000"), ("username", "   "),
                                      ("email", "   ")])] } ∧
      (login database sampleBcrypt sampleEnv
        { email := some "   ", password := some "   " } []).response =
        { status := 401,
          body := [("success", Json.bool false),
                   ("message", Json.str "Invalid credentials")] } := by
  decide

/-! ## The email pattern -/

/-- Nothing matches `never`. -/
theorem Re.matches_never_iff (u : List Char) : Re.Matches .never u ↔ False := by
  constructor
  · intro h
    cases h
  · exact False.elim

/-- Only the empty list matches `eps`. -/
theorem Re.matches_eps_iff (u : List Char) : Re.Matches .eps u ↔ u = [] := by
  constructor
  · intro h
    cases h
    rfl
  · rintro rfl
    exact Re.Matches.eps

/-- The lists that match a class are the single characters of the class. -/
theorem Re.matches_set_iff (p : Char → Bool) (u : List Char) :
    Re.Matches (.set p) u ↔ ∃ c, u = [c] ∧ p c = true := by
  constructor
  · intro h
    cases h with
    | set hc => exact ⟨_, rfl, hc⟩
  · rintro ⟨c, rfl, hc⟩
    exact Re.Matches.set hc

/-- The lists that match a sequence are the concatenations of matches of its parts. -/
theorem Re.matches_seq_iff (a b : Re) (u : List Char) :
    Re.Matches (.seq a b) u ↔ ∃ s t, u = s ++ t ∧ Re.Matches a s ∧ Re.Matches b t := by
  constructor
  · intro h
    cases h with
    | seq ha hb => exact ⟨_, _, rfl, ha, hb⟩
  · rintro ⟨s, t, rfl, ha, hb⟩
    exact Re.Matches.seq ha hb

/-- The lists that match an alternative are the matches of either side. -/
theorem Re.matches_alt_iff (a b : Re) (u : List Char) :
    Re.Matches (.alt a b) u ↔ Re.Matches a u ∨ Re.Matches b u := by
  constructor
  · intro h
    cases h with
    | altL ha => exact Or.inl ha
    | altR hb => exact Or.inr hb
  · rintro (ha | hb)
    · exact Re.Matches.altL ha
    · exact Re.Matches.altR hb

/-- A non-empty match of `a*` starts with a non-empty match of `a`. -/
theorem Re.matches_star_cons (a : Re) (c : Char) (u : List Char)
    (h : Re.Matches (.star a) (c :: u)) :
    ∃ s t, u = s ++ t ∧ Re.Matches a (c :: s) ∧ Re.Matches (.star a) t := by
  generalize hr : Re.star a = r at h
  generalize hv : c :: u = v at h
  induction h with
  | eps => cases hr
  | set _ => cases hr
  | seq _ _ => cases hr
  | altL _ => cases hr
  | altR _ => cases hr
  | starNil => cases hv
  | @starCons a0 s t hs ht _ iht =>
    cases hr
    cases s with
    | nil => exact iht rfl hv
    | cons d s =>
      simp only [List.cons_append, List.cons.injEq] at hv
      obtain ⟨rfl, rfl⟩ := hv
      exact ⟨s, t, rfl, hs, ht⟩

/-- The expression matches the empty list exactly when it is nullable. -/
theorem Re.nullable_iff (r : Re) : r.nullable = true ↔ Re.Matches r [] := by
  induction r with
  | never => simp [Re.nullable, Re.matches_never_iff]
  | eps => simp [Re.nullable, Re.matches_eps_iff]
  | set p => simp [Re.nullable, Re.matches_set_iff]
  | seq a b iha ihb =>
    simp only [Re.nullable, Bool.and_eq_true, iha, ihb, Re.matches_seq_iff]
    constructor
    · rintro ⟨ha, hb⟩
      exact ⟨[], [], rfl, ha, hb⟩
    · rintro ⟨s, t, hst, ha, hb⟩
      obtain ⟨rfl, rfl⟩ := List.append_eq_nil.mp hst.symm
      exact ⟨ha, hb⟩
  | alt a b iha ihb => simp [Re.nullable, iha, ihb, Re.matches_alt_iff]
  | star a _ => simp [Re.nullable, Re.Matches.starNil]

/-- The derivative by `c` matches `u` exactly when the expression matches `c :: u`. -/
theorem Re.deriv_iff (r : Re) (c : Char) (u : List Char) :
    Re.Matches (r.deriv c) u ↔ Re.Matches r (c :: u) := by
  induction r generalizing u with
  | never => simp [Re.deriv, Re.matches_never_iff]
  | eps => simp [Re.deriv, Re.matches_never_iff, Re.matches_eps_iff]
  | set p =>
    by_cases hp : p c = true
    · simp only [Re.deriv, hp, if_true, Re.matches_eps_iff, Re.matches_set_iff]
      constructor
      · rintro rfl
        exact ⟨c, rfl, hp⟩
      · rintro ⟨d, hd, -⟩
        exact (List.cons.inj hd).2
    · simp only [Re.deriv, hp, if_false, Re.matches_never_iff, Re.matches_set_iff,
        Bool.false_eq_true, false_iff, not_exists, not_and]
      intro d hd
      rw [← (List.cons.inj hd).1]
      exact hp
  | alt a b iha ihb => simp [Re.deriv, Re.matches_alt_iff, iha, ihb]
  | star a iha =>
    simp only [Re.deriv, Re.matches_seq_iff, iha]
    constructor
    · rintro ⟨s, t, rfl, hs, ht⟩
      exact Re.Matches.starCons hs ht
    · intro h
      exact Re.matches_star_cons a c u h
  | seq a b iha ihb =>
    have hsplit : Re.Matches (.seq a b) (c :: u) ↔
        (∃ s t, u = s ++ t ∧ Re.Matches a (c :: s) ∧ Re.Matches b t) ∨
          (Re.Matches a [] ∧ Re.Matches b (c :: u)) := by
      rw [Re.matches_seq_iff]
      constructor
      · rintro ⟨s, t, hst, ha, hb⟩
        cases s with
        | nil =>
          simp only [List.nil_append] at hst
          subst hst
          exact Or.inr ⟨ha, hb⟩
        | cons d s =>
          simp only [List.cons_append, List.cons.injEq] at hst
          obtain ⟨rfl, rfl⟩ := hst
          exact Or.inl ⟨s, t, rfl, ha, hb⟩
      · rintro (⟨s, t, rfl, ha, hb⟩ | ⟨ha, hb⟩)
        · exact ⟨c :: s, t, rfl, ha, hb⟩
        · exact ⟨[], c :: u, rfl, ha, hb⟩
    rw [hsplit]
    by_cases hn : a.nullable = true
    · simp only [Re.deriv, hn, if_true, Re.matches_alt_iff, Re.matches_seq_iff, iha, ihb,
        (Re.nullable_iff a).mp hn, true_and]
    · have hna : ¬ Re.Matches a [] := fun h => hn ((Re.nullable_iff a).mpr h)
      simp only [Re.deriv, hn, if_false, Re.matches_seq_iff, iha, hna, false_and, or_false,
        Bool.false_eq_true]

/-- The matcher decides the language: `test` is true exactly on the lists the expression
denotes. -/
theorem Re.test_iff (r : Re) (u : List Char) : r.test u = true ↔ Re.Matches r u := by
  induction u generalizing r with
  | nil => simpa [Re.test] using Re.nullable_iff r
  | cons c u ih =>
    have := ih (r.deriv c)
    simp only [Re.test, List.foldl_cons] at this ⊢
    rw [this, Re.deriv_iff]

/-- The lists that match `[p]*` are the lists of characters of the class. -/
theorem Re.matches_star_set_iff (p : Char → Bool) (u : List Char) :
    Re.Matches (.star (.set p)) u ↔ ∀ c ∈ u, p c = true := by
  induction u with
  | nil => simp [Re.Matches.starNil]
  | cons c u ih =>
    constructor
    · intro h
      obtain ⟨s, t, hst, hs, ht⟩ := Re.matches_star_cons (.set p) c u h
      obtain ⟨d, hd, hpd⟩ := (Re.matches_set_iff p (c :: s)).mp hs
      obtain ⟨rfl, rfl⟩ := List.cons.inj hd
      simp only [List.nil_append] at hst
      subst hst
      intro x hx
      rcases List.mem_cons.mp hx with rfl | hx
      · exact hpd
      · exact ih.mp ht x hx
    · intro h
      have hc : p c = true := h c (List.mem_cons_self c u)
      have hu : Re.Matches (.star (.set p)) u :=
        ih.mpr fun x hx => h x (List.mem_cons_of_mem c hx)
      exact Re.Matches.starCons (Re.Matches.set hc) hu

/-- The lists that match `[p]+` are the non-empty lists of characters of the class. -/
theorem Re.matches_plus_set_iff (p : Char → Bool) (u : List Char) :
    Re.Matches (Re.plus (.set p)) u ↔ u ≠ [] ∧ ∀ c ∈ u, p c = true := by
  simp only [Re.plus, Re.matches_seq_iff, Re.matches_set_iff, Re.matches_star_set_iff]
  constructor
  · rintro ⟨s, t, rfl, ⟨c, rfl, hc⟩, ht⟩
    refine ⟨by simp, ?_⟩
    intro x hx
    rcases List.mem_cons.mp hx with rfl | hx
    · exact hc
    · exact ht x hx
  · rintro ⟨hne, h⟩
    cases u with
    | nil => exact absurd rfl hne
    | cons c u =>
      exact ⟨[c], u, rfl, ⟨c, rfl, h c (List.mem_cons_self c u)⟩,
        fun x hx => h x (List.mem_cons_of_mem c hx)⟩

/-- The lists that match the email pattern: a non-empty local part, `@`, a non-empty part, a
`.`, and a non-empty part, the three parts free of white space and of `@`. -/
theorem matches_emailRegex_iff (u : List Char) :
    Re.Matches emailRegex u ↔
      ∃ lcl pre post : List Char, u = lcl ++ '@' :: (pre ++ '.' :: post) ∧
        (lcl ≠ [] ∧ ∀ c ∈ lcl, notSpaceAt c = true) ∧
        (pre ≠ [] ∧ ∀ c ∈ pre, notSpaceAt c = true) ∧
        (post ≠ [] ∧ ∀ c ∈ post, notSpaceAt c = true) := by
  simp only [emailRegex, Re.matches_seq_iff, Re.matches_plus_set_iff, Re.matches_set_iff]
  constructor
  · rintro ⟨lcl, r1, rfl, hl, s2, r2, rfl, ⟨c, rfl, hc⟩, pre, r3, rfl, hpre, s4, post, rfl,
      ⟨d, rfl, hd⟩, hpost⟩
    have hc1 : c = '@' := by simpa using hc
    have hd1 : d = '.' := by simpa using hd
    subst hc1 hd1
    exact ⟨lcl, pre, post, by simp, hl, hpre, hpost⟩
  · rintro ⟨lcl, pre, post, rfl, hl, hpre, hpost⟩
    exact ⟨lcl, _, rfl, hl, ['@'], _, rfl, ⟨'@', rfl, by simp⟩, pre, _, rfl, hpre, ['.'],
      post, rfl, ⟨'.', rfl, by simp⟩, hpost⟩

/-- The helper `isValidEmail` in terms of the parts of the email. -/
theorem isValidEmail_iff_parts (email : String) :
    isValidEmail email = true ↔
      ∃ lcl pre post : List Char, email.data = lcl ++ '@' :: (pre ++ '.' :: post) ∧
        (lcl ≠ [] ∧ ∀ c ∈ lcl, notSpaceAt c = true) ∧
        (pre ≠ [] ∧ ∀ c ∈ pre, notSpaceAt c = true) ∧
        (post ≠ [] ∧ ∀ c ∈ post, notSpaceAt c = true) := by
  rw [isValidEmail, Re.test_iff, matches_emailRegex_iff]

/-- C20, as the code has it: `isValidEmail(email)` is true exactly when the email is a
non-empty local part, a single `@`, and a part after it that contains a `.` with at least one
character before it and at least one after it, where no character of the email is white space
and no character other than that `@` is an `@`. -/
theorem isValidEmail_iff (email : String) :
    isValidEmail email = true ↔
      ∃ lcl pre post : List Char, email.data = lcl ++ '@' :: (pre ++ '.' :: post) ∧
        lcl ≠ [] ∧ pre ≠ [] ∧ post ≠ [] ∧
        (∀ c ∈ email.data, isJsWhitespace c = false) ∧
        (∀ c ∈ lcl ++ pre ++ post, c ≠ '@') := by
  rw [isValidEmail_iff_parts]
  have hcls : ∀ c : Char, notSpaceAt c = true ↔ isJsWhitespace c = false ∧ c ≠ '@' := by
    intro c
    simp [notSpaceAt]
  constructor
  · rintro ⟨lcl, pre, post, hdata, ⟨hl, hlc⟩, ⟨hp, hpc⟩, ⟨hq, hqc⟩⟩
    refine ⟨lcl, pre, post, hdata, hl, hp, hq, ?_, ?_⟩
    · intro c hc
      rw [hdata] at hc
      simp only [List.mem_append, List.mem_cons] at hc
      rcases hc with hc | rfl | hc | rfl | hc
      · exact ((hcls c).mp (hlc c hc)).1
      · decide
      · exact ((hcls c).mp (hpc c hc)).1
      · decide
      · exact ((hcls c).mp (hqc c hc)).1
    · intro c hc
      simp only [List.mem_append] at hc
      rcases hc with (hc | hc) | hc
      · exact ((hcls c).mp (hlc c hc)).2
      · exact ((hcls c).mp (hpc c hc)).2
      · exact ((hcls c).mp (hqc c hc)).2
  · rintro ⟨lcl, pre, post, hdata, hl, hp, hq, hws, hat⟩
    have hmem : ∀ c, c ∈ lcl ∨ c ∈ pre ∨ c ∈ post → notSpaceAt c = true := by
      intro c hc
      refine (hcls c).mpr ⟨hws c ?_, hat c ?_⟩
      · rw [hdata]
        simp only [List.mem_append, List.mem_cons]
        rcases hc with hc | hc | hc
        · exact Or.inl hc
        · exact Or.inr (Or.inr (Or.inl hc))
        · exact Or.inr (Or.inr (Or.inr (Or.inr hc)))
      · simp only [List.mem_append]
        rcases hc with hc | hc | hc
        · exact Or.inl (Or.inl hc)
        · exact Or.inl (Or.inr hc)
        · exact Or.inr hc
    exact ⟨lcl, pre, post, hdata, ⟨hl, fun c hc => hmem c (Or.inl hc)⟩,
      ⟨hp, fun c hc => hmem c (Or.inr (Or.inl hc))⟩,
      ⟨hq, fun c hc => hmem c (Or.inr (Or.inr hc))⟩⟩

/-- Witness of C20 as amended: `user.name@domain.co.uk` is valid, from its parts. -/
theorem isValidEmail_iff_witness : isValidEmail "user.name@domain.co.uk" = true :=
  (isValidEmail_iff "user.name@domain.co.uk").mpr
    ⟨"user.name".data, "domain".data, "co.uk".data, by decide, by decide, by decide,
      by decide, by decide, by decide⟩

/-- Counterexample to C20 as stated: `a@.com` and `a@com.` have no white space, one character
before their single `@` and after it a non-empty run without `@` that contains a `.`, yet
`isValidEmail` rejects them. -/
theorem claimed_email_rule_too_wide :
    claimedValidEmail "a@.com" = true ∧ isValidEmail "a@.com" = false ∧
      claimedValidEmail "a@com." = true ∧ isValidEmail "a@com." = false := by
  decide

/-! ## The client-side validators -/

/-- The validator `validateLoginForm` in terms of its blocks: it returns true when no block
fails, leaves in the login message element the last message shown, and marks the inputs of
the failing blocks. -/
theorem validateLoginForm_eq (email password : String) (dom : Dom) :
    validateLoginForm email password dom =
      ((loginFormErrors email password).messages.isEmpty,
       { loginMessage := (loginFormErrors email password).shown dom.loginMessage,
         registerMessage := dom.registerMessage,
         errorInputs := (loginFormErrors email password).marked }) := by
  unfold validateLoginForm
  by_cases h1 : (jsTrim email == "") = true <;>
  by_cases h2 : isValidEmail email = true <;>
  by_cases h3 : (jsTrim password == "") = true <;>
  simp [h1, h2, h3, loginFormErrors, loginEmailError, loginPasswordError,
    FieldErrors.messages, FieldErrors.marked, FieldErrors.shown, clearInputErrors, addError]

/-- The validator `validateRegisterForm` in terms of its blocks: it returns true when no
block fails, leaves in the register message element the last message shown, and marks the
inputs of the failing blocks. -/
theorem validateRegisterForm_eq (username email password confirmPassword : String)
    (dom : Dom) :
    validateRegisterForm username email password confirmPassword dom =
      ((registerFormErrors username email password confirmPassword).messages.isEmpty,
       { loginMessage := dom.loginMessage,
         registerMessage :=
           (registerFormErrors username email password confirmPassword).shown
             dom.registerMessage,
         errorInputs := (registerFormErrors username email password confirmPassword).marked })
    := by
  unfold validateRegisterForm
  by_cases h1 : (jsTrim username == "") = true <;>
  by_cases h2 : jsLength username < 3 <;>
  by_cases h3 : (jsTrim email == "") = true <;>
  by_cases h4 : isValidEmail email = true <;>
  by_cases h5 : (jsTrim password == "") = true <;>
  by_cases h6 : jsLength password < 6 <;>
  by_cases h7 : (jsTrim confirmPassword == "") = true <;>
  by_cases h8 : (password != confirmPassword) = true <;>
  simp [h1, h2, h3, h4, h5, h6, h7, h8, registerFormErrors, usernameError, emailError,
    passwordError, confirmPasswordError, FieldErrors.messages, FieldErrors.marked,
    FieldErrors.shown, clearInputErrors, addError]

/-- Trimming leaves the empty string exactly for the strings that consist only of white
space. -/
theorem jsTrim_eq_empty_iff (s : String) :
    (jsTrim s == "") = true ↔ whitespaceOnly s = true := by
  constructor
  · intro h
    have h1 : jsTrim s = "" := by simpa using h
    have h2 : ((s.data.dropWhile isJsWhitespace).reverse.dropWhile isJsWhitespace).reverse =
        [] := by
      have := congrArg String.data h1
      simpa [jsTrim] using this
    have h3 : ∀ c ∈ s.data.dropWhile isJsWhitespace, isJsWhitespace c = true := by
      have h4 := List.reverse_eq_nil_iff.mp h2
      rw [List.dropWhile_eq_nil_iff] at h4
      intro c hc
      exact h4 c (List.mem_reverse.mpr hc)
    have h5 : s.data.dropWhile isJsWhitespace = [] := by
      cases hd : s.data.dropWhile isJsWhitespace with
      | nil => rfl
      | cons c l =>
        have hc : isJsWhitespace c = true := h3 c (by rw [hd]; exact List.mem_cons_self c l)
        have hne := List.head_dropWhile_not isJsWhitespace s.data (by rw [hd]; simp)
        simp only [hd, List.head_cons] at hne
        rw [hc] at hne
        exact absurd hne (by decide)
    rw [List.dropWhile_eq_nil_iff] at h5
    simpa [whitespaceOnly, List.all_eq_true] using h5
  · intro h
    simp [jsTrim_of_whitespaceOnly s h]

/-- A valid email does not consist only of white space. -/
theorem whitespaceOnly_of_isValidEmail (email : String) (h : isValidEmail email = true) :
    whitespaceOnly email = false := by
  obtain ⟨lcl, pre, post, hdata, ⟨hl, hlc⟩, -, -⟩ := (isValidEmail_iff_parts email).mp h
  cases lcl with
  | nil => exact absurd rfl hl
  | cons c lcl =>
    have hc : isJsWhitespace c = false := by
      have := hlc c (List.mem_cons_self c lcl)
      simp only [notSpaceAt, Bool.and_eq_true, Bool.not_eq_true'] at this
      exact this.1
    simp [whitespaceOnly, hdata, hc]

/-- When no block fails, no input is marked and the message element is as it was. -/
theorem FieldErrors.of_messages_isEmpty (errs : FieldErrors) (before : MessageElement)
    (h : errs.messages.isEmpty = true) : errs.marked = [] ∧ errs.shown before = before := by
  have hnil : errs.messages = [] := List.isEmpty_iff.mp h
  refine ⟨?_, by simp [FieldErrors.shown, hnil]⟩
  simp only [FieldErrors.messages, List.filterMap_eq_nil_iff] at hnil
  simp only [FieldErrors.marked, List.map_eq_nil_iff, List.filter_eq_nil_iff]
  intro e he
  simp [hnil e he]

/-- C21: `validateRegisterForm` returns true exactly when the username has at least 3
characters and is not only white space, the email passes `isValidEmail`, the password has at
least 6 characters and is not only white space, and the confirmation equals the password; and
when it returns true it leaves both message elements as they were and no input marked. -/
theorem validateRegisterForm_true_iff (username email password confirmPassword : String)
    (dom : Dom) :
    ((validateRegisterForm username email password confirmPassword dom).1 = true ↔
        (3 ≤ jsLength username ∧ whitespaceOnly username = false) ∧
          isValidEmail email = true ∧
          (6 ≤ jsLength password ∧ whitespaceOnly password = false) ∧
          confirmPassword = password) ∧
      ((validateRegisterForm username email password confirmPassword dom).1 = true →
        (validateRegisterForm username email password confirmPassword dom).2 =
          { loginMessage := dom.loginMessage, registerMessage := dom.registerMessage,
            errorInputs := [] }) := by
  have hws : ∀ s : String, (jsTrim s == "") = false ↔ whitespaceOnly s = false := by
    intro s
    rw [← Bool.not_eq_true, ← Bool.not_eq_true, jsTrim_eq_empty_iff]
  constructor
  · rw [validateRegisterForm_fst]
    simp only [Bool.and_eq_true, Bool.not_eq_true', decide_eq_false_iff_not, Nat.not_lt, hws,
      bne_eq_false_iff_eq]
    constructor
    · rintro ⟨⟨⟨⟨hu1, hu2⟩, -, he⟩, hp1, hp2⟩, -, hc⟩
      exact ⟨⟨hu2, hu1⟩, he, ⟨hp2, hp1⟩, hc.symm⟩
    · rintro ⟨⟨hu2, hu1⟩, he, ⟨hp2, hp1⟩, rfl⟩
      exact ⟨⟨⟨⟨hu1, hu2⟩, whitespaceOnly_of_isValidEmail email he, he⟩, hp1, hp2⟩, hp1, rfl⟩
  · rw [validateRegisterForm_eq]
    intro h
    obtain ⟨h1, h2⟩ := FieldErrors.of_messages_isEmpty _ dom.registerMessage h
    simp only [h1, h2]

/-- Witness of C21: the valid input of the tests leaves the empty document untouched. -/
theorem validateRegisterForm_true_iff_witness :
    (validateRegisterForm "testuser" "test@example.com" "password123" "password123"
        emptyDom).2 =
      { loginMessage := emptyDom.loginMessage, registerMessage := emptyDom.registerMessage,
        errorInputs := [] } :=
  (validateRegisterForm_true_iff "testuser" "test@example.com" "password123" "password123"
    emptyDom).2 (by decide)

/-- C22: `validateLoginForm` returns true exactly when the email passes `isValidEmail` and
the password is not empty after trimming.  The message element is left with the last message
shown by the two blocks: the email block shows `Email is required` for an email that is empty
or only white space and `Please enter a valid email address` for another invalid email, and
these stay displayed when the password block passes; whenever the password is empty after
trimming the message left is `Password is required`. -/
theorem validateLoginForm_true_iff (email password : String) (dom : Dom) :
    ((validateLoginForm email password dom).1 = true ↔
        isValidEmail email = true ∧ jsTrim password ≠ "") ∧
      (validateLoginForm email password dom).2.loginMessage =
        (loginFormErrors email password).shown dom.loginMessage ∧
      (whitespaceOnly email = true →
        (loginFormErrors email password).messages.head? = some "Email is required" ∧
        (jsTrim password ≠ "" →
          (validateLoginForm email password dom).2.loginMessage =
            { textContent := "Email is required", className := "message error" })) ∧
      (whitespaceOnly email = false → isValidEmail email = false →
        (loginFormErrors email password).messages.head? =
          some "Please enter a valid email address" ∧
        (jsTrim password ≠ "" →
          (validateLoginForm email password dom).2.loginMessage =
            { textContent := "Please enter a valid email address",
              className := "message error" })) ∧
      (jsTrim password = "" →
        (validateLoginForm email password dom).2.loginMessage =
          { textContent := "Password is required", className := "message error" }) := by
  refine ⟨?_, by rw [validateLoginForm_eq], ?_, ?_, ?_⟩
  · rw [validateLoginForm_fst]
    simp only [Bool.and_eq_true, Bool.not_eq_true', beq_eq_false_iff_ne, ne_eq]
    constructor
    · rintro ⟨⟨-, he⟩, hp⟩
      exact ⟨he, hp⟩
    · rintro ⟨he, hp⟩
      refine ⟨⟨?_, he⟩, hp⟩
      intro hblank
      have hws := (jsTrim_eq_empty_iff email).mp (by simp [hblank])
      rw [whitespaceOnly_of_isValidEmail email he] at hws
      exact absurd hws (by decide)
  · intro hws
    have h1 : (jsTrim email == "") = true := (jsTrim_eq_empty_iff email).mpr hws
    refine ⟨by simp [loginFormErrors, loginEmailError, FieldErrors.messages, h1], ?_⟩
    intro hp
    rw [validateLoginForm_eq]
    simp [loginFormErrors, loginEmailError, loginPasswordError, FieldErrors.messages,
      FieldErrors.shown, h1, hp, showMessage]
  · intro hws hinv
    have h1 : (jsTrim email == "") = false := by
      rw [← Bool.not_eq_true, jsTrim_eq_empty_iff, hws]
      decide
    refine ⟨by simp [loginFormErrors, loginEmailError, FieldErrors.messages, h1, hinv], ?_⟩
    intro hp
    rw [validateLoginForm_eq]
    simp [loginFormErrors, loginEmailError, loginPasswordError, FieldErrors.messages,
      FieldErrors.shown, h1, hinv, hp, showMessage]
  · intro hp
    rw [validateLoginForm_eq]
    cases he : loginEmailError email <;>
      simp [loginFormErrors, loginPasswordError, FieldErrors.messages, FieldErrors.shown, he,
        hp, showMessage]

/-- Witness of C22: blank email and blank password leave `Password is required`, after
`Email is required` was shown. -/
theorem validateLoginForm_true_iff_witness :
    (loginFormErrors "   " "   ").messages.head? = some "Email is required" ∧
      (validateLoginForm "   " "   " emptyDom).2.loginMessage =
        { textContent := "Password is required", className := "message error" } ∧
      (validateLoginForm "invalid-email" "password123" emptyDom).2.loginMessage =
        { textContent := "Please enter a valid email address",
          className := "message error" } :=
  ⟨((validateLoginForm_true_iff "   " "   " emptyDom).2.2.1 (by decide)).1,
   (validateLoginForm_true_iff "   " "   " emptyDom).2.2.2.2 (by decide),
   ((validateLoginForm_true_iff "invalid-email" "password123" emptyDom).2.2.2.1 (by decide)
      (by decide)).2 (by decide)⟩

/-- C25: the message `validateRegisterForm` leaves displayed is that of the last failing
block in the order username, email, password, confirmation, each failing block overwriting
the message of the earlier ones; in particular, when the password and the confirmation are
both empty (or only white space) the message left is `Please confirm your password`. -/
theorem validateRegisterForm_last_message (username email password confirmPassword : String)
    (dom : Dom) :
    (validateRegisterForm username email password confirmPassword dom).2.registerMessage =
        (registerFormErrors username email password confirmPassword).shown
          dom.registerMessage ∧
      (∀ m, confirmPasswordError password confirmPassword = some m →
        (validateRegisterForm username email password confirmPassword dom).2.registerMessage =
          { textContent := m, className := "message error" }) ∧
      (∀ m, confirmPasswordError password confirmPassword = none →
        passwordError password = some m →
        (validateRegisterForm username email password confirmPassword dom).2.registerMessage =
          { textContent := m, className := "message error" }) ∧
      (∀ m, confirmPasswordError password confirmPassword = none →
        passwordError password = none → emailError email = some m →
        (validateRegisterForm username email password confirmPassword dom).2.registerMessage =
          { textContent := m, className := "message error" }) ∧
      (∀ m, confirmPasswordError password confirmPassword = none →
        passwordError password = none → emailError email = none →
        usernameError username = some m →
        (validateRegisterForm username email password confirmPassword dom).2.registerMessage =
          { textContent := m, className := "message error" }) ∧
      (whitespaceOnly password = true → whitespaceOnly confirmPassword = true →
        passwordError password = some "Password is required" ∧
        (validateRegisterForm username email password confirmPassword dom).2.registerMessage =
          { textContent := "Please confirm your password", className := "message error" }) := by
  rw [validateRegisterForm_eq]
  refine ⟨rfl, ?_, ?_, ?_, ?_, ?_⟩
  · intro m hc
    cases hu : usernameError username <;> cases he : emailError email <;>
      cases hp : passwordError password <;>
      simp [registerFormErrors, FieldErrors.messages, FieldErrors.shown, hu, he, hp, hc,
        showMessage]
  · intro m hc hp
    cases hu : usernameError username <;> cases he : emailError email <;>
      simp [registerFormErrors, FieldErrors.messages, FieldErrors.shown, hu, he, hp, hc,
        showMessage]
  · intro m hc hp he
    cases hu : usernameError username <;>
      simp [registerFormErrors, FieldErrors.messages, FieldErrors.shown, hu, he, hp, hc,
        showMessage]
  · intro m hc hp he hu
    simp [registerFormErrors, FieldErrors.messages, FieldErrors.shown, hu, he, hp, hc,
      showMessage]
  · intro hp hc
    have h1 : (jsTrim password == "") = true := (jsTrim_eq_empty_iff password).mpr hp
    have h2 : (jsTrim confirmPassword == "") = true :=
      (jsTrim_eq_empty_iff confirmPassword).mpr hc
    have hpe : passwordError password = some "Password is required" := by
      simp [passwordError, h1]
    have hce : confirmPasswordError password confirmPassword =
        some "Please confirm your password" := by
      simp [confirmPasswordError, h2]
    refine ⟨hpe, ?_⟩
    cases hu : usernameError username <;> cases he : emailError email <;>
      simp [registerFormErrors, FieldErrors.messages, FieldErrors.shown, hu, he, hpe, hce,
        showMessage]

/-- Witness of C25: the input of the test with an empty password and an empty confirmation,
and an input whose four blocks all fail. -/
theorem validateRegisterForm_last_message_witness :
    (validateRegisterForm "testuser" "test@example.com" "" "" emptyDom).2.registerMessage =
        { textContent := "Please confirm your password", className := "message error" } ∧
      (validateRegisterForm "ab" "invalid-email" "123" "456" emptyDom).2.registerMessage =
        { textContent := "Passwords do not match", className := "message error" } :=
  ⟨((validateRegisterForm_last_message "testuser" "test@example.com" "" "" emptyDom).2.2.2.2.2
      (by decide) (by decide)).2,
   (validateRegisterForm_last_message "ab" "invalid-email" "123" "456" emptyDom).2.1
      "Passwords do not match" (by decide)⟩

/-! ## The registration rules of the backend tests -/

/-- The function `validateRegistration` passes exactly when none of its five rules is
violated. -/
theorem validateRegistration_iff_passed (users : List JsObject)
    (username email password : Option String) :
    validateRegistration users username email password =
        { isValid := true, message := "Validation passed" } ↔
      (Falsy username || Falsy email || Falsy password) = false ∧
        3 ≤ jsLength (username.getD "") ∧ 6 ≤ jsLength (password.getD "") ∧
        isValidEmail (email.getD "") = true ∧
        ¬ ∃ user ∈ users, user.lookup "email" = some (email.getD "") := by
  have hfind : (users.find? fun user => user.lookup "email" == some (email.getD "")).isSome =
      true ↔ ∃ user ∈ users, user.lookup "email" = some (email.getD "") := by
    simp [List.find?_isSome]
  unfold validateRegistration
  by_cases h1 : (Falsy username || Falsy email || Falsy password) = true
  · simp [h1]
  by_cases h2 : jsLength (username.getD "") < 3
  · simp [h1, h2]
  by_cases h3 : jsLength (password.getD "") < 6
  · simp [h1, h2, h3]
  by_cases h4 : isValidEmail (email.getD "") = true
  · by_cases h5 : ∃ user ∈ users, user.lookup "email" = some (email.getD "")
    · simp only [h1, h2, h3, h4, hfind.mpr h5, if_false, if_true, Bool.not_true,
        Bool.false_eq_true]
      simp [h5]
    · have h6 : ¬ (users.find? fun user =>
          user.lookup "email" == some (email.getD "")).isSome = true :=
        fun h => h5 (hfind.mp h)
      simp only [h1, h2, h3, h4, h6, if_false, Bool.not_true, Bool.false_eq_true]
      simp [Nat.not_lt.mp h2, Nat.not_lt.mp h3, h5]
  · simp [h1, h2, h3, h4]

/-- C26: `validateRegistration` reports the first violated rule in the order missing field,
username shorter than 3, password shorter than 6, invalid email, email already registered,
each with its own message, and returns `isValid` true with the message `Validation passed`
exactly when none of the five rules is violated. -/
theorem validateRegistration_first_violation (users : List JsObject)
    (username email password : Option String) :
    ((Falsy username || Falsy email || Falsy password) = true →
        validateRegistration users username email password =
          { isValid := false, message := "Username, email, and password are required" }) ∧
      ((Falsy username || Falsy email || Falsy password) = false →
        jsLength (username.getD "") < 3 →
        validateRegistration users username email password =
          { isValid := false, message := "Username must be at least 3 characters long" }) ∧
      ((Falsy username || Falsy email || Falsy password) = false →
        3 ≤ jsLength (username.getD "") → jsLength (password.getD "") < 6 →
        validateRegistration users username email password =
          { isValid := false, message := "Password must be at least 6 characters long" }) ∧
      ((Falsy username || Falsy email || Falsy password) = false →
        3 ≤ jsLength (username.getD "") → 6 ≤ jsLength (password.getD "") →
        isValidEmail (email.getD "") = false →
        validateRegistration users username email password =
          { isValid := false, message := "Please enter a valid email address" }) ∧
      ((Falsy username || Falsy email || Falsy password) = false →
        3 ≤ jsLength (username.getD "") → 6 ≤ jsLength (password.getD "") →
        isValidEmail (email.getD "") = true →
        (∃ user ∈ users, user.lookup "email" = some (email.getD "")) →
        validateRegistration users username email password =
          { isValid := false, message := "User with this email already exists" }) ∧
      (validateRegistration users username email password =
          { isValid := true, message := "Validation passed" } ↔
        (Falsy username || Falsy email || Falsy password) = false ∧
          3 ≤ jsLength (username.getD "") ∧ 6 ≤ jsLength (password.getD "") ∧
          isValidEmail (email.getD "") = true ∧
          ¬ ∃ user ∈ users, user.lookup "email" = some (email.getD "")) := by
  have hfind : (users.find? fun user => user.lookup "email" == some (email.getD "")).isSome =
      true ↔ ∃ user ∈ users, user.lookup "email" = some (email.getD "") := by
    simp [List.find?_isSome]
  refine ⟨?_, ?_, ?_, ?_, ?_, ?_⟩
  · intro h1
    simp [validateRegistration, h1]
  · intro h1 h2
    simp [validateRegistration, h1, h2]
  · intro h1 h2 h3
    simp [validateRegistration, h1, Nat.not_lt.mpr h2, h3]
  · intro h1 h2 h3 h4
    simp [validateRegistration, h1, Nat.not_lt.mpr h2, Nat.not_lt.mpr h3, h4]
  · intro h1 h2 h3 h4 h5
    simp only [validateRegistration, h1, Nat.not_lt.mpr h2, Nat.not_lt.mpr h3, h4,
      hfind.mpr h5, Bool.false_eq_true, if_false, if_true, Bool.not_true]
  · exact validateRegistration_iff_passed users username email password

/-- Witness of C26: a short username together with a short password and an invalid email
reports the username; the valid input of the tests passes. -/
theorem validateRegistration_first_violation_witness :
    validateRegistration [] (some "ab") (some "invalid-email") (some "123") =
        { isValid := false, message := "Username must be at least 3 characters long" } ∧
      validateRegistration [[("email", "test@example.com")]] (some "testuser")
          (some "test@example.com") (some "password123") =
        { isValid := false, message := "User with this email already exists" } :=
  ⟨(validateRegistration_first_violation [] (some "ab") (some "invalid-email")
      (some "123")).2.1 (by decide) (by decide),
   (validateRegistration_first_violation [[("email", "test@example.com")]] (some "testuser")
      (some "test@example.com") (some "password123")).2.2.2.2.1 (by decide) (by decide)
      (by decide) (by decide) ⟨[("email", "test@example.com")], by simp, by decide⟩⟩

/-- C30: every username, email and password that `validateRegisterForm` accepts with the
confirmation equal to the password is accepted by `validateRegistration` when no user has the
email, and passes the missing-field check of the register handler; the converse fails, a
password of six spaces being accepted by `validateRegistration` and not by
`validateRegisterForm`. -/
theorem client_validation_stricter {σ : Type} (db : Database σ) (bc : Bcrypt) (env : Env)
    (s : σ) (users : List JsObject) (username email password : String) (dom : Dom)
    (hform : (validateRegisterForm username email password password dom).1 = true)
    (hfree : ∀ user ∈ users, user.lookup "email" ≠ some email) :
    validateRegistration users (some username) (some email) (some password) =
        { isValid := true, message := "Validation passed" } ∧
      (register db bc env
          { username := some username, email := some email, password := some password }
          s).response ≠
        { status := 400,
          body := [("success", Json.bool false),
                   ("message", Json.str "Username, email, and password are required")] } ∧
      validateRegistration [] (some "testuser") (some "test@example.com") (some "      ") =
        { isValid := true, message := "Validation passed" } ∧
      (validateRegisterForm "testuser" "test@example.com" "      " "      " dom).1 = false := by
  rw [validateRegisterForm_fst] at hform
  simp only [Bool.and_eq_true, Bool.not_eq_true', decide_eq_false_iff_not, Nat.not_lt,
    beq_eq_false_iff_ne, ne_eq] at hform
  obtain ⟨⟨⟨⟨hu1, hu2⟩, -, he⟩, hp1, hp2⟩, -, -⟩ := hform
  have hne : ∀ x : String, jsTrim x ≠ "" → x ≠ "" := by
    intro x hx hx0
    exact hx (by rw [hx0]; decide)
  have hfalsy : (Falsy (some username) || Falsy (some email) || Falsy (some password)) =
      false := by
    have he0 : email ≠ "" := by
      rintro rfl
      exact absurd he (by decide)
    simp [Falsy, hne username hu1, hne password hp1, he0]
  refine ⟨?_, ?_, by decide, ?_⟩
  · refine (validateRegistration_iff_passed users (some username) (some email)
      (some password)).mpr ⟨hfalsy, hu2, hp2, he, ?_⟩
    rintro ⟨user, hmem, hlook⟩
    exact hfree user hmem hlook
  · intro h
    have := (register_missing_iff db bc env _ s).mp h
    rw [hfalsy] at this
    exact absurd this (by decide)
  · rw [validateRegisterForm_fst]
    have : (jsTrim "      " == "") = true := by decide
    simp [this]

/-- Witness of C30: the valid input of the tests, with one other user registered. -/
theorem client_validation_stricter_witness :
    validateRegistration [[("email", "other@example.com")]] (some "testuser")
          (some "test@example.com") (some "password123") =
        { isValid := true, message := "Validation passed" } ∧
      (register database sampleBcrypt sampleEnv
          { username := some "testuser", email := some "test@example.com",
            password := some "password123" }
          []).response ≠
        { status := 400,
          body := [("success", Json.bool false),
                   ("message", Json.str "Username, email, and password are required")] } ∧
      validateRegistration [] (some "testuser") (some "test@example.com") (some "      ") =
        { isValid := true, message := "Validation passed" } ∧
      (validateRegisterForm "testuser" "test@example.com" "      " "      " emptyDom).1 =
        false :=
  client_validation_stricter database sampleBcrypt sampleEnv []
    [[("email", "other@example.com")]] "testuser" "test@example.com" "password123" emptyDom
    (by decide) (by decide)

/-! ## Stored accounts are only added -/

/-- A rejected insert leaves the table as it was. -/
theorem database_createUser_error (user : User) (t t2 : Table) (err : DbError)
    (h : database.createUser user t = (.error err, t2)) : t2 = t := by
  simp only [database] at h
  split at h
  · exact (Prod.mk.inj h).2.symm
  · split at h
    · exact (Prod.mk.inj h).2.symm
    · simp at h

/-- A register request over the table that is not answered 201 leaves the table as it
was. -/
theorem register_database_rejected (bc : Bcrypt) (env : Env) (body : RegisterBody)
    (t : Table) (h : (register database bc env body t).response.status ≠ 201) :
    (register database bc env body t).store = t := by
  by_cases hf : (Falsy body.username || Falsy body.email || Falsy body.password) = true
  · simp [register, hf]
  have hex := database_userExists_eq (body.email.getD "") t
  cases hb : (t.any fun r => r.email == body.email.getD "") with
  | true =>
    rw [hb] at hex
    simp [register, hf, hex]
  | false =>
  rw [hb] at hex
  cases hhash : bc.hash (body.password.getD "") 10 env.salt with
  | error err => simp [register, hf, hex, hhash]
  | ok hashed =>
  rcases hins : database.createUser
      { id := toString env.now, username := body.username.getD "",
        email := body.email.getD "", password := hashed, createdAt := env.isoNow } t
    with ⟨r, t2⟩
  cases r with
  | error err =>
    have := database_createUser_error _ t t2 err hins
    simp [register, hf, hex, hhash, hins, this]
  | ok created =>
    simp [register, hf, hex, hhash, hins] at h

/-- C24: stored accounts are never updated or deleted.  Over the `users` table, login,
list-accounts, health, an unmatched route and every register request that is not answered 201
leave the table as it was; a register request answered 201 appends exactly one row after the
rows already stored; and after any sequence of requests the rows stored before are still
there, unchanged and in the same order, followed by the added ones. -/
theorem stored_accounts_frame (bc : Bcrypt) (env : Env) (req : Request) (t : Table)
    (reqs : List (Env × Request)) :
    ((∀ body, req ≠ Request.register body) → (handle database bc env req t).store = t) ∧
      (∀ body, req = Request.register body →
        (handle database bc env req t).response.status ≠ 201 →
        (handle database bc env req t).store = t) ∧
      (∀ body, req = Request.register body →
        (handle database bc env req t).response.status = 201 →
        ∃ row, (handle database bc env req t).store = t ++ [row]) ∧
      ∃ added, runStore database bc reqs t = t ++ added := by
  refine ⟨?_, ?_, ?_, runStore_database_append bc reqs t⟩
  · intro hne
    cases req with
    | health => rfl
    | unmatched => rfl
    | users =>
      show (listUsers database t).store = t
      rcases listUsers_store_cases database t with h | h <;> exact h.trans rfl
    | login body =>
      show (login database bc env body t).store = t
      rcases login_store_cases database bc env body t with h | h <;> exact h.trans rfl
    | register body => exact absurd rfl (hne body)
  · rintro body rfl h
    exact register_database_rejected bc env body t h
  · rintro body rfl h
    obtain ⟨username, email, password, hashed, s1, s2, created, rfl, -⟩ :=
      register_created_inv database bc env body t h
    obtain ⟨hashed2, -, -, -, -, -, hstore⟩ :=
      register_database_created bc env username email password t h
    exact ⟨_, hstore⟩

/-- Witness of C24: a rejected registration, a login and a successful registration over the
table that holds bob. -/
theorem stored_accounts_frame_witness :
    (handle database sampleBcrypt sampleEnv
        (Request.login { email := some "bob@example.com", password := some "hunter22" })
        [bobRow]).store = [bobRow] ∧
      (handle database sampleBcrypt sampleEnv (Request.register aliceBody) [bobRow]).store =
        [bobRow] ∧
      ∃ row, (handle database sampleBcrypt laterEnv (Request.register aliceBody)
        [bobRow]).store = [bobRow] ++ [row] :=
  ⟨(stored_accounts_frame sampleBcrypt sampleEnv
      (Request.login { email := some "bob@example.com", password := some "hunter22" })
      [bobRow] []).1 (fun body h => by cases h),
   (stored_accounts_frame sampleBcrypt sampleEnv (Request.register aliceBody) [bobRow]
      []).2.1 aliceBody rfl (by decide),
   (stored_accounts_frame sampleBcrypt laterEnv (Request.register aliceBody) [bobRow]
      []).2.2.1 aliceBody rfl (by decide)⟩

/-! ## The value createUser resolves to -/

/-- Looking a property up after the values of the properties named `k` were replaced. -/
theorem lookup_map_replace (o : List (String × Json)) (k k' : String) (v : Json) :
    (o.map fun kv => if kv.1 == k then (k, v) else kv).lookup k' =
      if k' = k then (if (o.any fun kv => kv.1 == k) = true then some v else none)
      else o.lookup k' := by
  induction o with
  | nil => by_cases hk : k' = k <;> simp [hk]
  | cons kv o ih =>
    obtain ⟨k0, v0⟩ := kv
    by_cases h0 : k0 = k
    · subst h0
      by_cases hk : k' = k0
      · subst hk
        simp [List.lookup_cons]
      · have hb : (k' == k0) = false := by simpa using hk
        simp only [List.map_cons, beq_self_eq_true, if_true, List.lookup_cons, hb, ih, hk,
          if_false]
    · have hb0 : (k0 == k) = false := by simpa using h0
      by_cases hk0 : k' = k0
      · subst hk0
        simp [List.lookup_cons, hb0, h0]
      · have hb : (k' == k0) = false := by simpa using hk0
        simp only [List.map_cons, hb0, Bool.false_eq_true, if_false, List.lookup_cons, hb, ih,
          List.any_cons, Bool.false_or]

/-- Looking a property up after a property was added last. -/
theorem lookup_append_single (o : List (String × Json)) (k k' : String) (v : Json) :
    (o ++ [(k, v)]).lookup k' =
      match o.lookup k' with
      | some w => some w
      | none => if k' = k then some v else none := by
  induction o with
  | nil =>
    by_cases hk : k' = k
    · subst hk
      simp [List.lookup_cons]
    · have hb : (k' == k) = false := by simpa using hk
      simp only [List.nil_append, List.lookup_cons, hb, List.lookup_nil, hk, if_false]
  | cons kv o ih =>
    obtain ⟨k0, v0⟩ := kv
    by_cases hk0 : k' = k0
    · subst hk0
      simp [List.lookup_cons]
    · have hb : (k' == k0) = false := by simpa using hk0
      simp only [List.cons_append, List.lookup_cons, hb, ih]

/-- Looking a property up after one was set. -/
theorem lookup_setProperty (o : List (String × Json)) (k k' : String) (v : Json) :
    (setProperty o k v).lookup k' = if k' = k then some v else o.lookup k' := by
  unfold setProperty
  by_cases hany : (o.any fun kv => kv.1 == k) = true
  · rw [if_pos hany, lookup_map_replace, if_pos hany]
  · rw [if_neg hany, lookup_append_single]
    by_cases hk : k' = k
    · subst hk
      have hnone : o.lookup k' = none := by
        rw [List.lookup_eq_none_iff]
        intro kv hkv
        have hne : kv.1 ≠ k' := fun heq =>
          hany (List.any_eq_true.mpr ⟨kv, hkv, by simp [heq]⟩)
        simp only [bne_iff_ne, ne_eq]
        exact fun h => hne h.symm
      simp [hnone]
    · cases hl : o.lookup k' <;> simp [hk]

/-- Looking a property up in the object `{ id: lastID, ...user }`: the value `user` has for
it, or the value of `{ id: lastID }` when `user` has none. -/
theorem lookup_foldl_setProperty (user o : List (String × Json)) (k : String)
    (hkeys : (user.map Prod.fst).Nodup) :
    (user.foldl (fun o kv => setProperty o kv.1 kv.2) o).lookup k =
      match user.lookup k with
      | some v => some v
      | none => o.lookup k := by
  induction user generalizing o with
  | nil => simp [List.lookup]
  | cons kv user ih =>
    obtain ⟨k0, v0⟩ := kv
    simp only [List.map_cons, List.nodup_cons] at hkeys
    obtain ⟨hk0, hnd⟩ := hkeys
    simp only [List.foldl_cons]
    rw [ih (setProperty o k0 v0) hnd, lookup_setProperty]
    by_cases hk : k = k0
    · subst hk
      have hnone : user.lookup k = none := by
        rw [List.lookup_eq_none_iff]
        intro kv hkv
        have hne : kv.1 ≠ k := fun heq => hk0 (List.mem_map.mpr ⟨kv, hkv, heq⟩)
        simp only [bne_iff_ne, ne_eq]
        exact fun h => hne h.symm
      simp [List.lookup_cons, hnone]
    · have hb : (k == k0) = false := by simpa using hk
      simp only [List.lookup_cons, hb, hk, if_false]

/-- C29: when the insert succeeds `createUser` resolves to the input user.  In the object
`{ id: this.lastID, ...user }` every property of `user` has the value `user` gives it; for a
user that has an `id` property the `id` of the result is that value, whatever `lastID` is; for
the object `newUser` of the register handler the result has exactly the properties of
`newUser`, its `id` being the string `newUser.id` and not the number `lastID`. -/
theorem createUser_resolves_to_user (lastID : Nat) (user : List (String × Json)) (v : Json)
    (u r : User) (t t2 : Table)
    (hkeys : (user.map Prod.fst).Nodup) (hid : user.lookup "id" = some v)
    (hins : database.createUser u t = (.ok r, t2)) :
    (createUserResolved lastID user).lookup "id" = some v ∧
      (∀ k w, user.lookup k = some w → (createUserResolved lastID user).lookup k = some w) ∧
      createUserResolved lastID u.toRecord = u.toRecord ∧
      (createUserResolved lastID u.toRecord).lookup "id" = some (Json.str u.id) ∧
      (createUserResolved lastID u.toRecord).lookup "id" ≠ some (Json.num lastID) ∧
      r = u := by
  have hall : ∀ k w, user.lookup k = some w →
      (createUserResolved lastID user).lookup k = some w := by
    intro k w hk
    rw [createUserResolved, lookup_foldl_setProperty user _ k hkeys, hk]
  refine ⟨hall "id" v hid, hall, ?_, ?_, ?_, ?_⟩
  · simp [createUserResolved, User.toRecord, setProperty]
  · simp [createUserResolved, User.toRecord, setProperty, List.lookup]
  · simp [createUserResolved, User.toRecord, setProperty, List.lookup]
  · simp only [database] at hins
    split at hins
    · simp at hins
    · split at hins
      · simp at hins
      · exact (Except.ok.inj (Prod.mk.inj hins).1).symm

/-- Witness of C29: the record of alice, inserted as row number 1 of the empty table. -/
theorem createUser_resolves_to_user_witness :
    (createUserResolved 1
        [("id", Json.str "1700000000000"), ("username", Json.str "alice")]).lookup "id" =
        some (Json.str "1700000000000") ∧
      createUserResolved 1
          (User.toRecord
            { id := "1700000000000", username := "alice", email := "alice@example.com",
              password := "abcd$secret1", createdAt := "2023-11-14T22:13:20.000Z" }) =
        User.toRecord
          { id := "1700000000000", username := "alice", email := "alice@example.com",
            password := "abcd$secret1", createdAt := "2023-11-14T22:13:20.000Z" } :=
  ⟨(createUser_resolves_to_user 1
      [("id", Json.str "1700000000000"), ("username", Json.str "alice")]
      (Json.str "1700000000000")
      { id := "1700000000000", username := "alice", email := "alice@example.com",
        password := "abcd$secret1", createdAt := "2023-11-14T22:13:20.000Z" }
      { id := "1700000000000", username := "alice", email := "alice@example.com",
        password := "abcd$secret1", createdAt := "2023-11-14T22:13:20.000Z" }
      []
      [{ id := "1700000000000", username := "alice", email := "alice@example.com",
         password := "abcd$secret1", created_at := "2023-11-14T22:13:20.000Z" }]
      (by decide) rfl rfl).1,
   (createUser_resolves_to_user 1
      [("id", Json.str "1700000000000"), ("username", Json.str "alice")]
      (Json.str "1700000000000")
      { id := "1700000000000", username := "alice", email := "alice@example.com",
        password := "abcd$secret1", createdAt := "2023-11-14T22:13:20.000Z" }
      { id := "1700000000000", username := "alice", email := "alice@example.com",
        password := "abcd$secret1", createdAt := "2023-11-14T22:13:20.000Z" }
      []
      [{ id := "1700000000000", username := "alice", email := "alice@example.com",
         password := "abcd$secret1", created_at := "2023-11-14T22:13:20.000Z" }]
      (by decide) rfl rfl).2.2.1⟩

/-! ## The encoding of tokens -/

/-- The decimal digit characters denote their values. -/
theorem digitChar_value (k : Nat) (h : k < 10) : (Nat.digitChar k).toNat - 48 = k := by
  interval_cases k <;> rfl

/-- No decimal digit character is an underscore. -/
theorem digitChar_ne_underscore (k : Nat) (h : k < 10) : Nat.digitChar k ≠ '_' := by
  interval_cases k <;> decide

/-- Reading the decimal digits of `n` back gives `n`. -/
theorem toDigitsCore_decode (fuel n : Nat) (ds : List Char) (h : n < fuel) :
    (Nat.toDigitsCore 10 fuel n ds).foldl (fun a c => 10 * a + (c.toNat - 48)) 0 =
      ds.foldl (fun a c => 10 * a + (c.toNat - 48)) n := by
  induction fuel generalizing n ds with
  | zero => exact absurd h (Nat.not_lt_zero n)
  | succ fuel ih =>
    simp only [Nat.toDigitsCore]
    have hmod : n % 10 < 10 := Nat.mod_lt n (by decide)
    split
    · rename_i h0
      have hlt : n < 10 := by omega
      simp only [List.foldl_cons, Nat.mul_zero, Nat.zero_add, Nat.mod_eq_of_lt hlt,
        digitChar_value n hlt]
    · rename_i h0
      have hdiv : n / 10 < fuel := by omega
      rw [ih (n / 10) _ hdiv]
      simp only [List.foldl_cons, digitChar_value _ hmod]
      have : 10 * (n / 10) + n % 10 = n := Nat.div_add_mod n 10
      rw [this]

/-- No decimal digit of a number is an underscore. -/
theorem toDigitsCore_no_underscore (fuel n : Nat) (ds : List Char)
    (h : ∀ c ∈ ds, c ≠ '_') : ∀ c ∈ Nat.toDigitsCore 10 fuel n ds, c ≠ '_' := by
  induction fuel generalizing n ds with
  | zero => simpa [Nat.toDigitsCore] using h
  | succ fuel ih =>
    have hmod : n % 10 < 10 := Nat.mod_lt n (by decide)
    have hds : ∀ c ∈ Nat.digitChar (n % 10) :: ds, c ≠ '_' := by
      intro c hc
      rcases List.mem_cons.mp hc with rfl | hc
      · exact digitChar_ne_underscore _ hmod
      · exact h c hc
    simp only [Nat.toDigitsCore]
    split
    · exact hds
    · exact ih (n / 10) _ hds

/-- The decimal string of a natural number determines the number. -/
theorem toString_nat_injective (n m : Nat) (h : toString n = toString m) : n = m := by
  have hd : Nat.toDigits 10 n = Nat.toDigits 10 m := by
    have := congrArg String.data h
    simpa [toString, Nat.repr, List.asString] using this
  have hn := toDigitsCore_decode (n + 1) n [] (Nat.lt_succ_self n)
  have hm := toDigitsCore_decode (m + 1) m [] (Nat.lt_succ_self m)
  simp only [List.foldl_nil] at hn hm
  rw [← hn, ← hm]
  exact congrArg _ hd

/-- The decimal string of a natural number has no underscore. -/
theorem toString_nat_no_underscore (n : Nat) : '_' ∉ (toString n).data := by
  intro hmem
  have hd : (toString n).data = Nat.toDigitsCore 10 (n + 1) n [] := by
    simp [toString, Nat.repr, List.asString, Nat.toDigits]
  rw [hd] at hmem
  exact toDigitsCore_no_underscore (n + 1) n [] (by simp) '_' hmem rfl

/-- A list is split in one way only at the last occurrence of a character. -/
theorem append_cons_unique (x : Char) (l1 l2 s1 s2 : List Char)
    (h1 : x ∉ s1) (h2 : x ∉ s2) (h : l1 ++ x :: s1 = l2 ++ x :: s2) :
    l1 = l2 ∧ s1 = s2 := by
  induction l1 generalizing l2 with
  | nil =>
    cases l2 with
    | nil => exact ⟨rfl, (List.cons.inj h).2⟩
    | cons c l2 =>
      simp only [List.nil_append, List.cons_append, List.cons.injEq] at h
      exact absurd (h.2 ▸ List.mem_append_right l2 (List.mem_cons_self x s2)) h1
  | cons c l1 ih =>
    cases l2 with
    | nil =>
      simp only [List.nil_append, List.cons_append, List.cons.injEq] at h
      exact absurd (h.2 ▸ List.mem_append_right l1 (List.mem_cons_self x s1)) h2
    | cons d l2 =>
      simp only [List.cons_append, List.cons.injEq] at h
      obtain ⟨hl, hs⟩ := ih l2 h.2
      exact ⟨by rw [h.1, hl], hs⟩

/-- Two tokens `token_<id>_<time>` are equal exactly when the ids and the times are. -/
theorem token_eq_iff (id1 id2 : String) (n1 n2 : Nat) :
    "token_" ++ id1 ++ "_" ++ toString n1 = "token_" ++ id2 ++ "_" ++ toString n2 ↔
      id1 = id2 ∧ n1 = n2 := by
  constructor
  · intro h
    have hd := congrArg String.data h
    simp only [String.data_append] at hd
    have hd2 : id1.data ++ '_' :: (toString n1).data = id2.data ++ '_' :: (toString n2).data := by
      have h3 : "token_".data ++ (id1.data ++ '_' :: (toString n1).data) =
          "token_".data ++ (id2.data ++ '_' :: (toString n2).data) := by
        simpa [List.append_assoc] using hd
      exact List.append_cancel_left h3
    obtain ⟨hid, ht⟩ := append_cons_unique '_' _ _ _ _ (toString_nat_no_underscore n1)
      (toString_nat_no_underscore n2) hd2
    exact ⟨String.ext hid, toString_nat_injective n1 n2 (String.ext ht)⟩
  · rintro ⟨rfl, rfl⟩
    rfl

/-- The token of a successful login. -/
theorem issuedToken_login {σ : Type} (db : Database σ) (bc : Bcrypt) (env : Env)
    (email password : String) (s s1 : σ) (user : Row)
    (he : email ≠ "") (hp : password ≠ "")
    (hfind : db.findUserByEmail email s = (.ok (some user), s1))
    (hcmp : bc.compare password user.password = .ok true) :
    issuedToken (login db bc env { email := some email, password := some password }
        s).response =
      some ("token_" ++ user.id ++ "_" ++ toString env.now) := by
  rw [login_eq_of_found db bc env email password s s1 user true he hp hfind hcmp]
  rfl

/-- C27: the token of a successful login is `token_` followed by the account id, `_` and the
decimal `Date.now()`, and this encoding is injective for arbitrary ids: the tokens of two
successful logins are equal exactly when the account ids are equal and the times are
equal. -/
theorem login_token_injective {σ : Type} (db : Database σ) (bc : Bcrypt) (env1 env2 : Env)
    (email1 password1 email2 password2 : String) (s1 t1 s2 t2 : σ) (user1 user2 : Row)
    (he1 : email1 ≠ "") (hp1 : password1 ≠ "") (he2 : email2 ≠ "") (hp2 : password2 ≠ "")
    (hfind1 : db.findUserByEmail email1 s1 = (.ok (some user1), t1))
    (hcmp1 : bc.compare password1 user1.password = .ok true)
    (hfind2 : db.findUserByEmail email2 s2 = (.ok (some user2), t2))
    (hcmp2 : bc.compare password2 user2.password = .ok true) :
    issuedToken (login db bc env1 { email := some email1, password := some password1 }
        s1).response =
        some ("token_" ++ user1.id ++ "_" ++ toString env1.now) ∧
      issuedToken (login db bc env2 { email := some email2, password := some password2 }
        s2).response =
        some ("token_" ++ user2.id ++ "_" ++ toString env2.now) ∧
      (issuedToken (login db bc env1 { email := some email1, password := some password1 }
          s1).response =
        issuedToken (login db bc env2 { email := some email2, password := some password2 }
          s2).response ↔
        user1.id = user2.id ∧ env1.now = env2.now) := by
  have h1 := issuedToken_login db bc env1 email1 password1 s1 t1 user1 he1 hp1 hfind1 hcmp1
  have h2 := issuedToken_login db bc env2 email2 password2 s2 t2 user2 he2 hp2 hfind2 hcmp2
  refine ⟨h1, h2, ?_⟩
  rw [h1, h2, Option.some.injEq]
  exact token_eq_iff user1.id user2.id env1.now env2.now

/-- Witness of C27: two logins of alice at different milliseconds. -/
theorem login_token_injective_witness :
    issuedToken (login database sampleBcrypt sampleEnv
        { email := some "alice@example.com", password := some "secret1" }
        (register database sampleBcrypt sampleEnv aliceBody []).store).response =
        some ("token_" ++ "1700000000000" ++ "_" ++ toString sampleEnv.now) ∧
      issuedToken (login database sampleBcrypt laterEnv
        { email := some "alice@example.com", password := some "secret1" }
        (register database sampleBcrypt sampleEnv aliceBody []).store).response =
        some ("token_" ++ "1700000000000" ++ "_" ++ toString laterEnv.now) ∧
      (issuedToken (login database sampleBcrypt sampleEnv
          { email := some "alice@example.com", password := some "secret1" }
          (register database sampleBcrypt sampleEnv aliceBody []).store).response =
        issuedToken (login database sampleBcrypt laterEnv
          { email := some "alice@example.com", password := some "secret1" }
          (register database sampleBcrypt sampleEnv aliceBody []).store).response ↔
        "1700000000000" = "1700000000000" ∧ sampleEnv.now = laterEnv.now) :=
  login_token_injective database sampleBcrypt sampleEnv laterEnv "alice@example.com" "secret1"
    "alice@example.com" "secret1"
    (register database sampleBcrypt sampleEnv aliceBody []).store
    (register database sampleBcrypt sampleEnv aliceBody []).store
    (register database sampleBcrypt sampleEnv aliceBody []).store
    (register database sampleBcrypt sampleEnv aliceBody []).store
    { id := "1700000000000", username := "alice", email := "alice@example.com",
      password := "abcd$secret1", created_at := "2023-11-14T22:13:20.000Z" }
    { id := "1700000000000", username := "alice", email := "alice@example.com",
      password := "abcd$secret1", created_at := "2023-11-14T22:13:20.000Z" }
    (by decide) (by decide) (by decide) (by decide) rfl rfl rfl rfl

/-! ## The email pattern in the words of C28 -/

/-- A list without `@` ahead of an `@` is what `takeWhile` and `dropWhile` split off. -/
theorem takeWhile_dropWhile_at (lcl rest : List Char) (h : ∀ c ∈ lcl, c ≠ '@') :
    (lcl ++ '@' :: rest).takeWhile (· != '@') = lcl ∧
      (lcl ++ '@' :: rest).dropWhile (· != '@') = '@' :: rest := by
  induction lcl with
  | nil => simp
  | cons c lcl ih =>
    have hc : (c != '@') = true := by simpa using h c (List.mem_cons_self c lcl)
    obtain ⟨h1, h2⟩ := ih fun d hd => h d (List.mem_cons_of_mem c hd)
    simp [List.takeWhile_cons, List.dropWhile_cons, hc, h1, h2]

/-- Every list is its `takeWhile` part, free of `@`, followed by nothing or by an `@` and a
rest. -/
theorem split_at_first_at (cs : List Char) :
    (∀ c ∈ cs.takeWhile (· != '@'), c ≠ '@') ∧
      (cs.dropWhile (· != '@') = [] ∨
        ∃ rest, cs.dropWhile (· != '@') = '@' :: rest) ∧
      cs = cs.takeWhile (· != '@') ++ cs.dropWhile (· != '@') := by
  refine ⟨?_, ?_, (List.takeWhile_append_dropWhile _ cs).symm⟩
  · intro c hc
    have := List.mem_takeWhile_imp hc
    simpa using this
  · cases hd : cs.dropWhile (· != '@') with
    | nil => exact Or.inl rfl
    | cons c rest =>
      right
      have hne := List.head_dropWhile_not (· != '@') cs (by rw [hd]; simp)
      simp only [hd, List.head_cons] at hne
      have hc : c = '@' := by simpa using hne
      exact ⟨rest, by rw [hc]⟩

/-- The words of C28 unfolded: what `specValidEmail` asks of the characters. -/
theorem specValidEmail_iff (email : String) :
    specValidEmail email = true ↔
      (∀ c ∈ email.data, isJsWhitespace c = false) ∧ email.data.count '@' = 1 ∧
        email.data.takeWhile (· != '@') ≠ [] ∧
        '.' ∈ ((((email.data.dropWhile (· != '@')).drop 1).drop 1).dropLast) := by
  simp only [specValidEmail, Bool.and_eq_true, Bool.not_eq_true', List.any_eq_false,
    Bool.not_eq_true, beq_iff_eq, bne_iff_ne, ne_eq, List.contains, List.elem_iff, and_assoc]

/-- The parts of a valid email satisfy the words of C28. -/
theorem specValidEmail_of_parts (cs lcl pre post : List Char)
    (hcs : cs = lcl ++ '@' :: (pre ++ '.' :: post))
    (hl : lcl ≠ [] ∧ ∀ c ∈ lcl, notSpaceAt c = true)
    (hp : pre ≠ [] ∧ ∀ c ∈ pre, notSpaceAt c = true)
    (hq : post ≠ [] ∧ ∀ c ∈ post, notSpaceAt c = true) :
    (∀ c ∈ cs, isJsWhitespace c = false) ∧ cs.count '@' = 1 ∧
      cs.takeWhile (· != '@') ≠ [] ∧
      '.' ∈ ((((cs.dropWhile (· != '@')).drop 1).drop 1).dropLast) := by
  have hcls : ∀ c : Char, notSpaceAt c = true → isJsWhitespace c = false ∧ c ≠ '@' := by
    intro c hc
    simpa [notSpaceAt] using hc
  have hlat : ∀ c ∈ lcl, c ≠ '@' := fun c hc => (hcls c (hl.2 c hc)).2
  obtain ⟨htw, hdw⟩ := takeWhile_dropWhile_at lcl (pre ++ '.' :: post) hlat
  subst hcs
  refine ⟨?_, ?_, ?_, ?_⟩
  · intro c hc
    simp only [List.mem_append, List.mem_cons] at hc
    rcases hc with hc | rfl | hc | rfl | hc
    · exact (hcls c (hl.2 c hc)).1
    · decide
    · exact (hcls c (hp.2 c hc)).1
    · decide
    · exact (hcls c (hq.2 c hc)).1
  · have h1 : lcl.count '@' = 0 := List.count_eq_zero.mpr fun h => hlat '@' h rfl
    have h2 : pre.count '@' = 0 :=
      List.count_eq_zero.mpr fun h => (hcls '@' (hp.2 '@' h)).2 rfl
    have h3 : post.count '@' = 0 :=
      List.count_eq_zero.mpr fun h => (hcls '@' (hq.2 '@' h)).2 rfl
    simp [List.count_append, List.count_cons, h1, h2, h3]
  · rw [htw]
    exact hl.1
  · rw [hdw]
    obtain ⟨hpne, -⟩ := hp
    obtain ⟨hqne, -⟩ := hq
    cases pre with
    | nil => exact absurd rfl hpne
    | cons p0 pre =>
      have hne : '.' :: post ≠ [] := by simp
      simp only [List.drop_succ_cons, List.drop_zero, List.cons_append,
        List.dropLast_append_of_ne_nil pre hne, List.dropLast_cons_of_ne_nil hqne,
        List.mem_append, List.mem_cons, true_or, or_true]

/-- An email that satisfies the words of C28 has the parts of a valid email. -/
theorem parts_of_specValidEmail (cs : List Char)
    (hws : ∀ c ∈ cs, isJsWhitespace c = false) (hcount : cs.count '@' = 1)
    (hbefore : cs.takeWhile (· != '@') ≠ [])
    (hdot : '.' ∈ ((((cs.dropWhile (· != '@')).drop 1).drop 1).dropLast)) :
    ∃ lcl pre post : List Char, cs = lcl ++ '@' :: (pre ++ '.' :: post) ∧
      (lcl ≠ [] ∧ ∀ c ∈ lcl, notSpaceAt c = true) ∧
      (pre ≠ [] ∧ ∀ c ∈ pre, notSpaceAt c = true) ∧
      (post ≠ [] ∧ ∀ c ∈ post, notSpaceAt c = true) := by
  obtain ⟨htw, hdw, hsplit⟩ := split_at_first_at cs
  rcases hdw with hnil | ⟨rest, hrest⟩
  · rw [hnil] at hdot
    simp at hdot
  rw [hrest] at hdot hsplit
  simp only [List.drop_succ_cons, List.drop_zero] at hdot
  have hc0 : (cs.takeWhile (· != '@')).count '@' = 0 :=
    List.count_eq_zero.mpr fun h => htw '@' h rfl
  have hrest0 : rest.count '@' = 0 := by
    have h := hcount
    rw [hsplit, List.count_append, List.count_cons, hc0] at h
    simpa using h
  have hrat : ∀ c ∈ rest, c ≠ '@' := by
    intro c hc heq
    exact List.count_eq_zero.mp hrest0 (heq ▸ hc)
  cases rest with
  | nil => simp at hdot
  | cons d0 r1 =>
    simp only [List.drop_succ_cons, List.drop_zero] at hdot
    have hr1 : r1 ≠ [] := by
      rintro rfl
      simp at hdot
    obtain ⟨a, b, hab⟩ := List.append_of_mem hdot
    have hr1eq : r1 = a ++ '.' :: (b ++ [r1.getLast hr1]) := by
      have := List.dropLast_append_getLast hr1
      rw [hab] at this
      simpa [List.append_assoc] using this.symm
    have hmem : ∀ c, c ∈ cs.takeWhile (· != '@') ∨ c ∈ d0 :: r1 → notSpaceAt c = true := by
      intro c hc
      have hin : c ∈ cs := by
        rw [hsplit]
        rcases hc with hc | hc
        · exact List.mem_append_left _ hc
        · exact List.mem_append_right _ (List.mem_cons_of_mem _ hc)
      have hne : c ≠ '@' := by
        rcases hc with hc | hc
        · exact htw c hc
        · exact hrat c hc
      simp [notSpaceAt, hws c hin, hne]
    refine ⟨cs.takeWhile (· != '@'), d0 :: a, b ++ [r1.getLast hr1], ?_, ⟨hbefore, ?_⟩,
      ⟨by simp, ?_⟩, ⟨by simp, ?_⟩⟩
    · rw [List.cons_append, ← hr1eq]
      exact hsplit
    · exact fun c hc => hmem c (Or.inl hc)
    · intro c hc
      refine hmem c (Or.inr ?_)
      rw [hr1eq]
      rcases List.mem_cons.mp hc with rfl | hc
      · exact List.mem_cons_self _ _
      · exact List.mem_cons_of_mem _ (List.mem_append_left _ hc)
    · intro c hc
      refine hmem c (Or.inr ?_)
      rw [hr1eq]
      exact List.mem_cons_of_mem _ (List.mem_append_right _ (List.mem_cons_of_mem _ hc))

/-- C28: `isValidEmail(email)` is true exactly when the email has no white space, exactly one
`@`, at least one character before it, and after it a part that contains a `.` which is
neither its first nor its last character; so `a@.com` and `a@com.` are rejected, although the
part after the `@` contains a `.`, and `a@b..c` is accepted. -/
theorem isValidEmail_eq_specValidEmail (email : String) :
    isValidEmail email = specValidEmail email ∧
      isValidEmail "a@.com" = false ∧ isValidEmail "a@com." = false ∧
      ("a@.com".data.contains '.' = true ∧ "a@com.".data.contains '.' = true) ∧
      isValidEmail "a@b..c" = true := by
  refine ⟨?_, by decide, by decide, by decide, by decide⟩
  rw [Bool.eq_iff_iff, isValidEmail_iff_parts, specValidEmail_iff]
  constructor
  · rintro ⟨lcl, pre, post, hcs, hl, hp, hq⟩
    exact specValidEmail_of_parts email.data lcl pre post hcs hl hp hq
  · rintro ⟨hws, hcount, hbefore, hdot⟩
    exact parts_of_specValidEmail email.data hws hcount hbefore hdot

/-! ## Two registrations in flight for one email -/

/-- The turns of a register request, taken one after the other without interruption, are the
register handler. -/
theorem registerStep_thrice {σ : Type} (db : Database σ) (bc : Bcrypt) (env : Env)
    (body : RegisterBody) (s : σ) :
    registerStep db bc env
        (registerStep db bc env (registerStep db bc env (.start body) s).1
          (registerStep db bc env (.start body) s).2).1
        (registerStep db bc env (registerStep db bc env (.start body) s).1
          (registerStep db bc env (.start body) s).2).2 =
      (.finished (register db bc env body s).response, (register db bc env body s).store) := by
  by_cases hf : (Falsy body.username || Falsy body.email || Falsy body.password) = true
  · simp [registerStep, register, hf]
  rcases hex : db.userExists (body.email.getD "") s with ⟨r, s1⟩
  cases r with
  | error err => simp [registerStep, register, hf, hex]
  | ok b =>
  cases b with
  | true => simp [registerStep, register, hf, hex]
  | false =>
  cases hhash : bc.hash (body.password.getD "") 10 env.salt with
  | error err => simp [registerStep, register, hf, hex, hhash]
  | ok hashed =>
  rcases hins : db.createUser
      { id := toString env.now, username := body.username.getD "",
        email := body.email.getD "", password := hashed, createdAt := env.isoNow } s1
    with ⟨r, s2⟩
  cases r <;> simp [registerStep, register, hf, hex, hhash, hins]

/-- An insert of an email that a row already has is rejected by a constraint and leaves the
table as it was. -/
theorem database_createUser_taken (user : User) (t : Table)
    (h : ∃ r ∈ t, r.email = user.email) :
    ∃ column, database.createUser user t = (.error (DbError.constraint column), t) := by
  have hany : (t.any fun r => r.email == user.email) = true := by
    obtain ⟨r, hr, heq⟩ := h
    exact List.any_eq_true.mpr ⟨r, hr, by simp [heq]⟩
  simp only [database, hany, if_true]
  split <;> exact ⟨_, rfl⟩

/-- One turn of a request that has passed the existence check, over the table: the request
stays past the check, and the number of rows with the email grows by one exactly when the
turn makes the request answered 201, which happens only when no row had the email. -/
theorem registerStep_pastCheck (bc : Bcrypt) (env : Env) (email : String) (a : RegisterTask)
    (t : Table) (h : a.PastCheck email) :
    (registerStep database bc env a t).1.PastCheck email ∧
      a.created ≤ (registerStep database bc env a t).1.created ∧
      countEmail email (registerStep database bc env a t).2 + a.created =
        countEmail email t + (registerStep database bc env a t).1.created ∧
      (a.created < (registerStep database bc env a t).1.created → countEmail email t = 0) := by
  cases a with
  | start body => exact absurd h id
  | finished r => simp [registerStep, h]
  | hashing username e password =>
    cases hhash : bc.hash password 10 env.salt with
    | error err =>
      simp [registerStep, hhash, RegisterTask.PastCheck, RegisterTask.created, internalError]
    | ok hashed =>
      have he : e = email := h
      simp [registerStep, hhash, RegisterTask.PastCheck, RegisterTask.created, he]
  | inserting username e hashed =>
    have he : e = email := h
    subst he
    rcases hins : database.createUser
        { id := toString env.now, username := username, email := e, password := hashed,
          createdAt := env.isoNow } t with ⟨r, t2⟩
    cases r with
    | error err =>
      have ht2 := database_createUser_error _ t t2 err hins
      subst ht2
      simp [registerStep, hins, RegisterTask.PastCheck, RegisterTask.created, internalError]
    | ok made =>
      have h2 := hins
      simp only [database] at h2
      split at h2
      · simp at h2
      · split at h2
        · simp at h2
        · rename_i hid hmail
          obtain ⟨-, ht2⟩ := Prod.mk.inj h2
          subst ht2
          have hzero : countEmail e t = 0 := by
            simp only [countEmail, List.length_eq_zero, List.filter_eq_nil_iff]
            intro r hr hre
            exact hmail (List.any_eq_true.mpr ⟨r, hr, hre⟩)
          have hone : countEmail e
              (t ++ [{ id := toString env.now, username := username, email := e,
                       password := hashed, created_at := env.isoNow }]) =
              countEmail e t + 1 := by
            simp [countEmail, List.filter_append]
          simp only [registerStep, hins, RegisterTask.PastCheck, RegisterTask.created, hone,
            hzero, if_true, true_or, Nat.zero_le, Nat.add_zero, Nat.zero_add, implies_true,
            and_self]

/-- A request creates at most one account. -/
theorem RegisterTask.created_le_one (a : RegisterTask) : a.created ≤ 1 := by
  cases a with
  | finished r =>
    simp only [RegisterTask.created]
    split <;> omega
  | start body => simp [RegisterTask.created]
  | hashing username email password => simp [RegisterTask.created]
  | inserting username email hashed => simp [RegisterTask.created]

/-- Along every schedule of two requests that have passed the existence check for one email,
the number of rows with the email is the number of requests answered 201, and it is at most
one. -/
theorem runPair_pastCheck (bc : Bcrypt) (envA envB : Env) (email : String)
    (sched : List Bool) (a b : RegisterTask) (t : Table)
    (ha : a.PastCheck email) (hb : b.PastCheck email)
    (hcount : countEmail email t = a.created + b.created)
    (hle : a.created + b.created ≤ 1) :
    (runPair database bc envA envB sched (a, b, t)).1.PastCheck email ∧
      (runPair database bc envA envB sched (a, b, t)).2.1.PastCheck email ∧
      countEmail email (runPair database bc envA envB sched (a, b, t)).2.2 =
        (runPair database bc envA envB sched (a, b, t)).1.created +
          (runPair database bc envA envB sched (a, b, t)).2.1.created ∧
      (runPair database bc envA envB sched (a, b, t)).1.created +
        (runPair database bc envA envB sched (a, b, t)).2.1.created ≤ 1 := by
  induction sched generalizing a b t with
  | nil => exact ⟨ha, hb, hcount, hle⟩
  | cons turn sched ih =>
    cases turn with
    | true =>
      obtain ⟨h1, h2, h3, h4⟩ := registerStep_pastCheck bc envA email a t ha
      simp only [runPair]
      apply ih _ _ _ h1 hb
      · omega
      · by_cases hlt : a.created < (registerStep database bc envA a t).1.created
        · have := h4 hlt
          have hc := RegisterTask.created_le_one (registerStep database bc envA a t).1
          omega
        · omega
    | false =>
      obtain ⟨h1, h2, h3, h4⟩ := registerStep_pastCheck bc envB email b t hb
      simp only [runPair]
      apply ih _ _ _ ha h1
      · omega
      · by_cases hlt : b.created < (registerStep database bc envB b t).1.created
        · have := h4 hlt
          have hc := RegisterTask.created_le_one (registerStep database bc envB b t).1
          omega
        · omega

/-- C23: the existence check and the insert of a registration are not atomic.  Two register
requests for one email that no row has can both pass the existence check (the schedule that
gives each its first turn leaves both about to hash, over the unchanged table).  However their
later turns are scheduled, when both are answered: they are not both answered 201; when one
is answered 201 the other is answered 500 `Internal server error` and the table holds exactly
one row with the email; the table never holds more than one; and an insert of an email that a
row already has is rejected by a constraint of the table. -/
theorem concurrent_registrations (bc : Bcrypt) (envA envB : Env)
    (usernameA passwordA usernameB passwordB email : String) (t t2 : Table)
    (sched : List Bool) (responseA responseB : Response)
    (hua : usernameA ≠ "") (hpa : passwordA ≠ "") (hub : usernameB ≠ "") (hpb : passwordB ≠ "")
    (he : email ≠ "") (hfresh : ∀ r ∈ t, r.email ≠ email)
    (hrun : runPair database bc envA envB sched
        (.hashing usernameA email passwordA, .hashing usernameB email passwordB, t) =
      (.finished responseA, .finished responseB, t2)) :
    runPair database bc envA envB [true, false]
        (.start { username := some usernameA, email := some email,
                  password := some passwordA },
         .start { username := some usernameB, email := some email,
                  password := some passwordB }, t) =
        (.hashing usernameA email passwordA, .hashing usernameB email passwordB, t) ∧
      ¬ (responseA.status = 201 ∧ responseB.status = 201) ∧
      (responseA.status = 201 →
        responseB =
            { status := 500,
              body := [("success", Json.bool false),
                       ("message", Json.str "Internal server error")] } ∧
          countEmail email t2 = 1) ∧
      (responseB.status = 201 →
        responseA =
            { status := 500,
              body := [("success", Json.bool false),
                       ("message", Json.str "Internal server error")] } ∧
          countEmail email t2 = 1) ∧
      countEmail email t2 ≤ 1 ∧
      ∀ (user : User) (t0 : Table), (∃ r ∈ t0, r.email = user.email) →
        ∃ column, database.createUser user t0 = (.error (DbError.constraint column), t0) := by
  have hzero : countEmail email t = 0 := by
    simp only [countEmail, List.length_eq_zero, List.filter_eq_nil_iff]
    intro r hr hre
    exact hfresh r hr (by simpa using hre)
  have hex : database.userExists email t = (.ok false, t) := by
    rw [database_userExists_eq]
    have : (t.any fun r => r.email == email) = false := by
      rw [List.any_eq_false]
      intro r hr
      simpa using hfresh r hr
    rw [this]
  obtain ⟨h1, h2, h3, h4⟩ := runPair_pastCheck bc envA envB email sched
    (.hashing usernameA email passwordA) (.hashing usernameB email passwordB) t rfl rfl
    (by simpa [RegisterTask.created] using hzero) (by simp [RegisterTask.created])
  rw [hrun] at h1 h2 h3 h4
  simp only [RegisterTask.created] at h3 h4
  have hA : responseA.status = 201 ∨ responseA = internalError := h1
  have hB : responseB.status = 201 ∨ responseB = internalError := h2
  refine ⟨?_, ?_, ?_, ?_, ?_, fun user t0 h => database_createUser_taken user t0 h⟩
  · simp [runPair, registerStep, Falsy, hua, hpa, hub, hpb, he, hex]
  · rintro ⟨ha, hb⟩
    simp only [ha, hb, if_true] at h4
    omega
  · intro ha
    have hb : ¬ responseB.status = 201 := by
      intro hb
      simp only [ha, hb, if_true] at h4
      omega
    refine ⟨?_, ?_⟩
    · rcases hB with hB | hB
      · exact absurd hB hb
      · rw [hB]
        rfl
    · simp only [ha, hb, if_true, if_false] at h3
      exact h3
  · intro hb
    have ha : ¬ responseA.status = 201 := by
      intro ha
      simp only [ha, hb, if_true] at h4
      omega
    refine ⟨?_, ?_⟩
    · rcases hA with hA | hA
      · exact absurd hA ha
      · rw [hA]
        rfl
    · simp only [ha, hb, if_true, if_false] at h3
      exact h3
  · omega

/-- Witness of C23: alice is registered twice at once over the empty table; both requests
pass the existence check, and of the two inserts the second is rejected. -/
theorem concurrent_registrations_witness :
    runPair database sampleBcrypt sampleEnv laterEnv [true, false]
        (.start { username := some "alice", email := some "alice@example.com",
                  password := some "secret1" },
         .start { username := some "alice2", email := some "alice@example.com",
                  password := some "secret2" }, []) =
        (.hashing "alice" "alice@example.com" "secret1",
         .hashing "alice2" "alice@example.com" "secret2", []) ∧
      runPair database sampleBcrypt sampleEnv laterEnv [true, false, true, false]
        (.hashing "alice" "alice@example.com" "secret1",
         .hashing "alice2" "alice@example.com" "secret2", []) =
        (.finished
           { status := 201,
             body := [("success", Json.bool true),
                      ("message", Json.str "User registered successfully"),
                      ("user", Json.obj [("id", "1700000000000"), ("username", "alice"),
                                         ("email", "alice@example.com")])] },
         .finished
           { status := 500,
             body := [("success", Json.bool false),
                      ("message", Json.str "Internal server error")] },
         [{ id := "1700000000000", username := "alice", email := "alice@example.com",
            password := "abcd$secret1", created_at := "2023-11-14T22:13:20.000Z" }]) ∧
      countEmail "alice@example.com"
        [{ id := "1700000000000", username := "alice", email := "alice@example.com",
           password := "abcd$secret1", created_at := "2023-11-14T22:13:20.000Z" }] = 1 :=
  ⟨(concurrent_registrations sampleBcrypt sampleEnv laterEnv "alice" "secret1" "alice2"
      "secret2" "alice@example.com" []
      [{ id := "1700000000000", username := "alice", email := "alice@example.com",
         password := "abcd$secret1", created_at := "2023-11-14T22:13:20.000Z" }]
      [true, false, true, false]
      { status := 201,
        body := [("success", Json.bool true),
                 ("message", Json.str "User registered successfully"),
                 ("user", Json.obj [("id", "1700000000000"), ("username", "alice"),
                                    ("email", "alice@example.com")])] }
      { status := 500,
        body := [("success", Json.bool false),
                 ("message", Json.str "Internal server error")] }
      (by decide) (by decide) (by decide) (by decide) (by decide) (by decide) rfl).1,
   rfl,
   ((concurrent_registrations sampleBcrypt sampleEnv laterEnv "alice" "secret1" "alice2"
      "secret2" "alice@example.com" []
      [{ id := "1700000000000", username := "alice", email := "alice@example.com",
         password := "abcd$secret1", created_at := "2023-11-14T22:13:20.000Z" }]
      [true, false, true, false]
      { status := 201,
        body := [("success", Json.bool true),
                 ("message", Json.str "User registered successfully"),
                 ("user", Json.obj [("id", "1700000000000"), ("username", "alice"),
                                    ("email", "alice@example.com")])] }
      { status := 500,
        body := [("success", Json.bool false),
                 ("message", Json.str "Internal server error")] }
      (by decide) (by decide) (by decide) (by decide) (by decide) (by decide) rfl).2.2.1
      rfl).2⟩

end LoginComponent
